import Mathlib

/-!
Verification development for the corofy outreach scheduling and gating engine.

The definitions below are a shallow embedding of the Python services in
`app/services` (timezone_service.py, webhook_service.py,
email_sending_service.py, followup_service.py, dead_letter_queue_service.py,
simplified_email_tracking_service.py, reply_service.py) together with the
router-level orchestration in `app/routers/leads.py`.

Modelling conventions:
* Wall-clock instants are natural-number UTC timestamps (seconds); calendar
  dates are day numbers (`t / 86400`).  The time-zone database is injected as
  a function `clock : String → Nat × Nat` mapping a time-zone name to the
  local `(weekday, hour)` of the current instant, with `0 = Monday`,
  `6 = Sunday`, exactly as Python's `datetime.weekday()`.
* The mail relay (the n8n webhook) is an external collaborator; each call to
  it is driven by an injected `RelayOutcome`.  Sweeps consume a list of
  outcomes, one per delivery attempt, in processing order.
* The relational store becomes an explicit `Sys` record holding the
  `scraped_data` rows and the `failed_emails` rows; PostgREST filters become
  `List.filter` over those rows.
* Python text statuses stay `String`s (including the `"true"`/`"false"`/
  `"cancelled"` text markers); nullable columns become `Option`.
-/

namespace Corofy

/-! ### String constants used by the services -/

def sEmailSent : String := "email_sent"
def sFollowup5Sent : String := "followup_5day_sent"
def sFollowup10Sent : String := "followup_10day_sent"
def sReplyReceived : String := "reply_received"
def sScheduled : String := "scheduled"
def sSending : String := "sending"
def sProcessing : String := "processing"
def sFailedStatus : String := "failed"
def sPending : String := "pending"
def sRetrying : String := "retrying"
def sResolved : String := "resolved"
def sTrue : String := "true"
def sFalse : String := "false"
def sCancelled : String := "cancelled"
def sInitial : String := "initial"
def sFollowup5day : String := "followup_5day"
def sFollowup10day : String := "followup_10day"
def sRetry : String := "retry"
def s5day : String := "5day"
def s10day : String := "10day"
def followupPrefixStr : String := "followup_"
def sWebhookError : String := "webhook_error"
def sUnknownError : String := "Unknown error"
def sLeadNotFound : String := "Lead not found"
def sContentError : String := "Content generation failed"
def sTimeoutError : String := "Webhook timeout"
def sHttpErrorMsg : String := "Webhook HTTP error"
def sTimezoneError : String := "Unknown timezone"
def sUTC : String := "UTC"
def sHigh : String := "high"
def sMedium : String := "medium"
def sLow : String := "low"
def sSundayReason : String := "It is Sunday (not a business day)"
def sTooEarly : String := "Too early"
def sTooLate : String := "Too late"
def emptyStr : String := ""
def demoFounderEmail : String := "founder@example.com"

/-- The hard-coded test recipient used by `send_email_to_lead` and
`process_email_queue` (marked `TEST EMAIL OVERRIDE` in the source). -/
def testEmailOverride : String := "prachirathi0712@gmail.com"

/-! ### Python truthiness helpers

Supabase rows carry nullable text columns; Python treats `None` and `""`
as falsy, so `if value:` style guards are modelled by `truthy`. -/

/-- Python truthiness of an optional string: `None` and `""` are falsy. -/
def truthy : Option String → Bool
  | none => false
  | some s => decide (s ≠ "")

/-- Python `a or b` on two optional strings: `a` when truthy, else `b`. -/
def orOpt (a b : Option String) : Option String :=
  if truthy a then a else b

/-- Python `update_data["k"] = v if v else keep old`: overwrite a stored text
field only when the new value is truthy. -/
def overwriteIfTruthy (newVal : Option String) (old : String) : String :=
  match newVal with
  | some m => if m = "" then old else m
  | none => old

/-! ### Business-Hours Oracle (`timezone_service.py`) -/

/-- Result of `TimezoneService.is_business_hours` (the fields the callers
read). -/
structure BusinessHoursResult where
  is_business_hours : Bool
  day_of_week : Nat
  current_hour : Nat
  is_weekday : Bool
  reason : Option String
deriving Repr, DecidableEq

def dayNames : List String :=
  ["Monday", "Tuesday", "Wednesday", "Thursday", "Friday", "Saturday", "Sunday"]

/-- `TimezoneService.is_business_hours`, with the current local instant
injected as `(dayOfWeek, currentHour)` (Python reads it from
`datetime.now(tz)`).  Faithful to the source: business days are Monday to
Saturday (`day_of_week < 6`), and the end hour is clamped:
`effective_end_hour = 18 if end_hour >= 18 else end_hour`. -/
def isBusinessHours (dayOfWeek currentHour startHour endHour : Nat) :
    BusinessHoursResult :=
  let isBusinessDay : Bool := decide (dayOfWeek < 6)
  let effectiveEndHour : Nat := if 18 ≤ endHour then 18 else endHour
  let isWithinHours : Bool :=
    decide (startHour ≤ currentHour) && decide (currentHour < effectiveEndHour)
  let isBusinessTime : Bool := isBusinessDay && isWithinHours
  let reason : Option String :=
    if isBusinessTime then none
    else if dayOfWeek = 6 then some sSundayReason
    else if currentHour < startHour then some sTooEarly
    else if effectiveEndHour ≤ currentHour then some sTooLate
    else none
  { is_business_hours := isBusinessTime
    day_of_week := dayOfWeek
    current_hour := currentHour
    is_weekday := isBusinessDay
    reason := reason }

/-- `TimezoneService.COUNTRY_TIMEZONE_MAP`. -/
def countryTimezoneMap : List (String × String) :=
  [("United States", "America/New_York"),
   ("USA", "America/New_York"),
   ("US", "America/New_York"),
   ("India", "Asia/Kolkata"),
   ("United Kingdom", "Europe/London"),
   ("UK", "Europe/London"),
   ("Canada", "America/Toronto"),
   ("Australia", "Australia/Sydney"),
   ("Germany", "Europe/Berlin"),
   ("France", "Europe/Paris"),
   ("Japan", "Asia/Tokyo"),
   ("China", "Asia/Shanghai"),
   ("Brazil", "America/Sao_Paulo"),
   ("Mexico", "America/Mexico_City"),
   ("Spain", "Europe/Madrid"),
   ("Italy", "Europe/Rome"),
   ("Netherlands", "Europe/Amsterdam"),
   ("Belgium", "Europe/Brussels"),
   ("Switzerland", "Europe/Zurich"),
   ("Sweden", "Europe/Stockholm"),
   ("Norway", "Europe/Oslo"),
   ("Denmark", "Europe/Copenhagen"),
   ("Poland", "Europe/Warsaw"),
   ("Russia", "Europe/Moscow"),
   ("South Korea", "Asia/Seoul"),
   ("Singapore", "Asia/Singapore"),
   ("Hong Kong", "Asia/Hong_Kong"),
   ("Taiwan", "Asia/Taipei"),
   ("Thailand", "Asia/Bangkok"),
   ("Indonesia", "Asia/Jakarta"),
   ("Malaysia", "Asia/Kuala_Lumpur"),
   ("Philippines", "Asia/Manila"),
   ("Vietnam", "Asia/Ho_Chi_Minh"),
   ("New Zealand", "Pacific/Auckland"),
   ("South Africa", "Africa/Johannesburg"),
   ("UAE", "Asia/Dubai"),
   ("United Arab Emirates", "Asia/Dubai"),
   ("Saudi Arabia", "Asia/Riyadh"),
   ("Israel", "Asia/Jerusalem"),
   ("Turkey", "Europe/Istanbul"),
   ("Argentina", "America/Argentina/Buenos_Aires"),
   ("Chile", "America/Santiago"),
   ("Colombia", "America/Bogota"),
   ("Peru", "America/Lima"),
   ("Venezuela", "America/Caracas")]

/-- `TimezoneService.get_timezone_for_country`: exact match, then
case-insensitive match, else UTC.  `if not country` covers both `None` and
the empty string. -/
def getTimezoneForCountry (country : Option String) : String :=
  match country with
  | none => sUTC
  | some c =>
    if c = "" then sUTC
    else
      let n := c.trim
      match countryTimezoneMap.find? (fun p => decide (p.1 = n)) with
      | some p => p.2
      | none =>
        match countryTimezoneMap.find? (fun p => decide (p.1.toLower = n.toLower)) with
        | some p => p.2
        | none => sUTC

/-- `TimezoneService.check_lead_business_hours`: resolve the country to a
time zone, then apply the business-hours window under the injected local
clock. -/
def checkLeadBusinessHours (country : Option String)
    (clock : String → Nat × Nat) (startHour endHour : Nat) :
    BusinessHoursResult :=
  let tz := getTimezoneForCountry country
  isBusinessHours (clock tz).1 (clock tz).2 startHour endHour

/-! ### Delivery Gateway Adapter (`webhook_service.py`) -/

/-- What the transport layer produced for one call to the n8n relay:
either an HTTP response (status code plus the JSON fields the service
reads), or an exception path. -/
inductive RelayOutcome where
  | http (statusCode : Nat) (successFlag : Option Bool)
      (messageId : Option String) (gmailThreadId : Option String)
      (threadId : Option String)
  | timeout
  | transportError (msg : String)
deriving Repr, DecidableEq

/-- The result `WebhookService.send_email_via_webhook` hands back to its
caller: the top-level `success` flag, the `message_id`/`gmail_thread_id`
fields of the built `webhook_response` dict (present only when truthy), and
the top-level `error` key (present only on the exception paths). -/
structure WebhookSendResult where
  success : Bool
  message_id : Option String
  gmail_thread_id : Option String
  error : Option String
deriving Repr, DecidableEq

/-- `WebhookService.send_email_via_webhook`, response handling only (the
payload construction is captured separately by `WebhookCall` records).
`raise_for_status` turns any status ≥ 400 into the `HTTPStatusError`
branch; a 2xx response is confirmed only when the relay returned a truthy
`message_id` (and, under the explicit `success=True` flag, also a truthy
thread identifier). -/
def sendEmailViaWebhook (o : RelayOutcome) : WebhookSendResult :=
  match o with
  | .timeout =>
    { success := false, message_id := none, gmail_thread_id := none
      error := some sTimeoutError }
  | .transportError m =>
    { success := false, message_id := none, gmail_thread_id := none
      error := some m }
  | .http code successFlag mid gtid tid =>
    if 400 ≤ code then
      { success := false, message_id := none, gmail_thread_id := none
        error := some sHttpErrorMsg }
    else if code = 200 ∨ code = 201 then
      if successFlag = some true then
        let m := mid
        let g := orOpt gtid tid
        if truthy m && truthy g then
          { success := true, message_id := m, gmail_thread_id := g, error := none }
        else
          { success := false
            message_id := if truthy m then m else none
            gmail_thread_id := if truthy g then g else none
            error := none }
      else if truthy mid then
        let g := orOpt gtid tid
        { success := true, message_id := mid
          gmail_thread_id := if truthy g then g else none, error := none }
      else
        { success := false, message_id := none, gmail_thread_id := none
          error := none }
    else
      { success := false, message_id := none, gmail_thread_id := none
        error := none }

/-! ### Data model: `scraped_data` rows, `failed_emails` rows, the store -/

/-- One row of the `scraped_data` table (the fields the scheduling and
gating engine reads or writes). -/
structure Lead where
  id : Nat
  founder_email : Option String
  company_country : Option String
  is_verified : Bool
  email_processed : Option Bool
  mail_status : String
  sent_at : Option Nat
  scheduled_time : Option Nat
  email_timezone : Option String
  is_personalized : Bool
  company_website_used : Bool
  gmail_thread_id : Option String
  gmail_message_id : Option String
  followup_5_scheduled_date : Option Nat
  followup_10_scheduled_date : Option Nat
  followup_5_sent : Option String
  followup_10_sent : Option String
  reply_priority : Option String
  mail_replies : Option String
  error_message : Option String
deriving Repr, DecidableEq

/-- One row of the `failed_emails` table (a dead-letter entry). -/
structure DLQEntry where
  id : Nat
  lead_id : Nat
  email_to : String
  subject : String
  body : String
  error_message : String
  error_type : String
  attempt_count : Nat
  max_attempts : Nat
  status : String
  next_retry_at : Nat
  last_attempt_at : Option Nat
  resolved_at : Option Nat
deriving Repr, DecidableEq

/-- The durable store: the `scraped_data` rows, the `failed_emails` rows and
the id the database would assign to the next inserted dead-letter entry. -/
structure Sys where
  leads : List Lead
  dlq : List DLQEntry
  nextDlqId : Nat
deriving Repr, DecidableEq

/-- `UPDATE scraped_data SET ... WHERE id = i`. -/
def updateLead (s : Sys) (i : Nat) (f : Lead → Lead) : Sys :=
  { s with leads := s.leads.map fun l => if l.id = i then f l else l }

/-- `SELECT * FROM scraped_data WHERE id = i` (first row). -/
def findLead (s : Sys) (i : Nat) : Option Lead :=
  s.leads.find? fun l => decide (l.id = i)

/-- `UPDATE failed_emails SET ... WHERE id = i`. -/
def updateDlq (s : Sys) (i : Nat) (f : DLQEntry → DLQEntry) : Sys :=
  { s with dlq := s.dlq.map fun e => if e.id = i then f e else e }

/-- `SELECT * FROM failed_emails WHERE id = i` (first row). -/
def findDlq (s : Sys) (i : Nat) : Option DLQEntry :=
  s.dlq.find? fun e => decide (e.id = i)

/-! ### Dead-Letter Queue (`dead_letter_queue_service.py`) -/

/-- `DeadLetterQueueService.max_attempts`. -/
def maxAttempts : Nat := 3

/-- `DeadLetterQueueService.retry_delays` (1h, 2h, 4h in seconds). -/
def retryDelays : List Nat := [3600, 7200, 14400]

/-- `DeadLetterQueueService.add_failed_email`: insert a `pending` entry with
`attempt_count = 1` and `next_retry_at` one backoff step from now. -/
def addFailedEmail (s : Sys) (leadId : Nat)
    (emailTo subject body errMsg errType : String) (now : Nat) : Sys :=
  let entry : DLQEntry :=
    { id := s.nextDlqId
      lead_id := leadId
      email_to := emailTo
      subject := subject
      body := body
      error_message := errMsg
      error_type := errType
      attempt_count := 1
      max_attempts := maxAttempts
      status := sPending
      next_retry_at := now + retryDelays.getD 0 0
      last_attempt_at := none
      resolved_at := none }
  { s with dlq := s.dlq ++ [entry], nextDlqId := s.nextDlqId + 1 }

/-! ### Email sending (`email_sending_service.py`) -/

/-- One call actually placed to the delivery webhook: the payload
`send_email_via_webhook` is invoked with. -/
structure WebhookCall where
  email_to : String
  subject : String
  body : String
  lead_id : Nat
  email_type : String
  gmail_thread_id : Option String
  gmail_message_id : Option String
deriving Repr, DecidableEq

/-- What `EmailPersonalizationService.generate_email_for_lead` produced
(injected: the content generator is an external collaborator). `none`
models a generation failure. -/
structure EmailContent where
  subject : String
  body : String
  is_personalized : Bool
  company_website_used : Bool
deriving Repr, DecidableEq

/-- Result of one send operation: the updated store, the webhook calls that
were placed, the `success` flag, the top-level `error`, and the
`webhook_response` handed back to callers. -/
structure SendOutcome where
  sys : Sys
  calls : List WebhookCall
  ok : Bool
  error : Option String
  wr : WebhookSendResult
deriving Repr, DecidableEq

/-- A `WebhookSendResult` for paths on which no webhook call happened. -/
def emptyWr : WebhookSendResult :=
  { success := false, message_id := none, gmail_thread_id := none, error := none }

/-- `FollowUpService.schedule_followups_for_lead`: store the 5-day and
10-day due dates (day numbers of `sent_at + 5d` and `sent_at + 10d`) and
reset both text markers to `"false"`. -/
def scheduleFollowupsForLead (s : Sys) (leadId : Nat) (sentAt : Nat) : Sys :=
  updateLead s leadId fun l =>
    { l with
      followup_5_scheduled_date := some ((sentAt + 5 * 86400) / 86400)
      followup_10_scheduled_date := some ((sentAt + 10 * 86400) / 86400)
      followup_5_sent := some sFalse
      followup_10_sent := some sFalse }

/-- `EmailSendingService._send_email_immediately`: place the webhook call;
on confirmed delivery set the type-appropriate `mail_status`, stamp
`sent_at`, copy truthy provider identifiers, and (for `initial` emails)
schedule the follow-ups; on failure leave the lead untouched and record the
failure in the dead-letter queue. -/
def sendEmailImmediately (s : Sys) (leadId : Nat)
    (leadEmail subject body emailType : String)
    (isPersonalized companyWebsiteUsed : Bool)
    (gmailThreadId gmailMessageId : Option String)
    (relay : RelayOutcome) (now : Nat) : SendOutcome :=
  let call : WebhookCall :=
    { email_to := leadEmail, subject := subject, body := body
      lead_id := leadId, email_type := emailType
      gmail_thread_id := gmailThreadId, gmail_message_id := gmailMessageId }
  let wr := sendEmailViaWebhook relay
  if wr.success then
    let statusValue :=
      if emailType = sInitial then sEmailSent
      else if emailType = sFollowup5day then sFollowup5Sent
      else if emailType = sFollowup10day then sFollowup10Sent
      else sEmailSent
    let s1 := updateLead s leadId fun l =>
      { l with
        mail_status := statusValue
        sent_at := some now
        is_personalized := isPersonalized
        company_website_used := companyWebsiteUsed
        gmail_message_id := if truthy wr.message_id then wr.message_id else l.gmail_message_id
        gmail_thread_id := if truthy wr.gmail_thread_id then wr.gmail_thread_id else l.gmail_thread_id }
    let s2 := if emailType = sInitial then scheduleFollowupsForLead s1 leadId now else s1
    { sys := s2, calls := [call], ok := true, error := none, wr := wr }
  else
    let s1 := addFailedEmail s leadId leadEmail subject body
      ((wr.error).getD sUnknownError) sWebhookError now
    { sys := s1, calls := [call], ok := false, error := wr.error, wr := wr }

/-- Python `email_type.startswith("followup_")`, computed on the character
lists. -/
def strStartsWith (s pre : String) : Bool :=
  pre.data.isPrefixOf s.data

/-- `EmailSendingService.send_email_to_lead`: fetch the lead, force the
recipient to the test override, pull the stored thread identifiers for
follow-up types, obtain content from the personalization collaborator and
delegate to `sendEmailImmediately`.  No `mail_status` guard is performed. -/
def sendEmailToLead (s : Sys) (leadId : Nat) (emailType : String)
    (content : Option EmailContent) (relay : RelayOutcome) (now : Nat) :
    SendOutcome :=
  match findLead s leadId with
  | none =>
    { sys := s, calls := [], ok := false, error := some sLeadNotFound, wr := emptyWr }
  | some lead =>
    let leadEmail := testEmailOverride
    let gmailThreadId :=
      if strStartsWith emailType followupPrefixStr then lead.gmail_thread_id else none
    let gmailMessageId :=
      if strStartsWith emailType followupPrefixStr then lead.gmail_message_id else none
    match content with
    | none =>
      { sys := s, calls := [], ok := false, error := some sContentError, wr := emptyWr }
    | some c =>
      sendEmailImmediately s leadId leadEmail c.subject c.body emailType
        c.is_personalized c.company_website_used gmailThreadId gmailMessageId
        relay now

/-! ### Follow-Up Scheduler sweep (`followup_service.py`) -/

/-- One element of the `all_due_leads` list built by
`process_due_followups`: the lead row as fetched, plus the follow-up type
(`"5day"` or `"10day"`). -/
structure DueItem where
  lead : Lead
  ftype : String
deriving Repr, DecidableEq

/-- The first due query: `mail_status = 'email_sent'`, 5-day marker null or
`'false'`, 5-day scheduled date non-null and `≤ today`. -/
def isDue5 (today : Nat) (l : Lead) : Bool :=
  decide (l.mail_status = sEmailSent) &&
  (decide (l.followup_5_sent = none) || decide (l.followup_5_sent = some sFalse)) &&
  (match l.followup_5_scheduled_date with
   | some d => decide (d ≤ today)
   | none => false)

/-- The second due query: `mail_status = 'followup_5day_sent'`, 10-day
marker null or `'false'`, 10-day scheduled date non-null and `≤ today`. -/
def isDue10 (today : Nat) (l : Lead) : Bool :=
  decide (l.mail_status = sFollowup5Sent) &&
  (decide (l.followup_10_sent = none) || decide (l.followup_10_sent = some sFalse)) &&
  (match l.followup_10_scheduled_date with
   | some d => decide (d ≤ today)
   | none => false)

/-- The `all_due_leads` list: both queries, each post-filtered by the
`mail_status != 'reply_received'` double check, 5-day items first. -/
def dueList (s : Sys) (today : Nat) : List DueItem :=
  (((s.leads.filter (isDue5 today)).filter
      (fun l => decide (l.mail_status ≠ sReplyReceived))).map
    fun l => { lead := l, ftype := s5day }) ++
  (((s.leads.filter (isDue10 today)).filter
      (fun l => decide (l.mail_status ≠ sReplyReceived))).map
    fun l => { lead := l, ftype := s10day })

/-- Pop the next injected (content, relay) pair for a delivery attempt; an
exhausted oracle degrades to a generation failure plus a timeout. -/
def popPair (o : List (Option EmailContent × RelayOutcome)) :
    (Option EmailContent × RelayOutcome) × List (Option EmailContent × RelayOutcome) :=
  match o with
  | [] => ((none, RelayOutcome.timeout), [])
  | p :: rest => (p, rest)

/-- Aggregate result of `process_due_followups`. -/
structure SweepResult where
  sys : Sys
  calls : List WebhookCall
  processed : Nat
  failed : Nat
  skipped_timezone : Nat
  skipped_replied : Nat
deriving Repr, DecidableEq

/-- One iteration of the `process_due_followups` loop: snapshot reply
check (marking the corresponding marker `'cancelled'`), business-hours
gate on the lead's country, then `send_email_to_lead` with
`followup_{type}`; on success set `mail_status`, the `'true'` marker and
any truthy provider identifiers returned by the webhook.  Also returns the
relay outcomes still unconsumed. -/
def dueStep (clock : String → Nat × Nat) (now : Nat) (item : DueItem)
    (oracle : List (Option EmailContent × RelayOutcome)) (acc : SweepResult) :
    SweepResult × List (Option EmailContent × RelayOutcome) :=
  let lead := item.lead
  if lead.mail_status = sReplyReceived then
    let s1 :=
      if item.ftype = s5day then
        updateLead acc.sys lead.id fun l => { l with followup_5_sent := some sCancelled }
      else
        updateLead acc.sys lead.id fun l => { l with followup_10_sent := some sCancelled }
    ({ acc with sys := s1, skipped_replied := acc.skipped_replied + 1 }, oracle)
  else
    let tzCheck := checkLeadBusinessHours lead.company_country clock 9 18
    if tzCheck.is_business_hours = false then
      ({ acc with skipped_timezone := acc.skipped_timezone + 1 }, oracle)
    else
      let pair := (popPair oracle).1
      let oracle' := (popPair oracle).2
      let emailType := followupPrefixStr ++ item.ftype
      let r := sendEmailToLead acc.sys lead.id emailType pair.1 pair.2 now
      if r.ok then
        let s2 := updateLead r.sys lead.id fun l =>
          let l1 :=
            if item.ftype = s5day then
              { l with mail_status := sFollowup5Sent, followup_5_sent := some sTrue }
            else
              { l with mail_status := sFollowup10Sent, followup_10_sent := some sTrue }
          { l1 with
            gmail_thread_id :=
              if truthy r.wr.gmail_thread_id then r.wr.gmail_thread_id else l1.gmail_thread_id
            gmail_message_id :=
              if truthy r.wr.message_id then r.wr.message_id else l1.gmail_message_id }
        ({ acc with
           sys := s2
           calls := acc.calls ++ r.calls
           processed := acc.processed + 1 }, oracle')
      else
        ({ acc with
           sys := r.sys
           calls := acc.calls ++ r.calls
           failed := acc.failed + 1 }, oracle')

/-- The loop of `process_due_followups` over the due items. -/
def dueLoop (clock : String → Nat × Nat) (now : Nat) :
    List DueItem → List (Option EmailContent × RelayOutcome) → SweepResult →
    SweepResult
  | [], _, acc => acc
  | item :: rest, oracle, acc =>
    let next := dueStep clock now item oracle acc
    dueLoop clock now rest next.2 next.1

/-- `FollowUpService.process_due_followups`: build the due list for today
(`utcnow().date()`, i.e. `now / 86400`) and run the loop. -/
def processDueFollowups (s : Sys) (clock : String → Nat × Nat) (now : Nat)
    (oracle : List (Option EmailContent × RelayOutcome)) : SweepResult :=
  dueLoop clock now (dueList s (now / 86400)) oracle
    { sys := s, calls := [], processed := 0, failed := 0
      skipped_timezone := 0, skipped_replied := 0 }

/-- `FollowUpService.cancel_followups_for_lead` (the explicit
`/followups/{id}/cancel` endpoint): set both text markers to
`'cancelled'`. -/
def cancelFollowupsForLead (s : Sys) (leadId : Nat) : Sys :=
  updateLead s leadId fun l =>
    { l with followup_5_sent := some sCancelled, followup_10_sent := some sCancelled }

/-! ### Reply handling (`reply_service.py`) -/

/-- `ReplyService._analyze_reply`, store effects only: with a non-empty
reply body, set `mail_status = 'reply_received'`; when the analysis
collaborator succeeds also store the validated priority and the summary.
Note: no follow-up cancellation happens here. -/
def analyzeReply (s : Sys) (leadId : Nat) (replyBody : String)
    (analysis : Option (String × String)) : Sys :=
  if replyBody = "" then s
  else
    match analysis with
    | some (summary, priorityRaw) =>
      let p0 := priorityRaw.toLower
      let p := if p0 = sHigh ∨ p0 = sMedium ∨ p0 = sLow then p0 else sMedium
      updateLead s leadId fun l =>
        { l with
          mail_status := sReplyReceived
          reply_priority := some p
          mail_replies := some summary }
    | none =>
      updateLead s leadId fun l => { l with mail_status := sReplyReceived }

/-! ### Batch Quota Tracker (`simplified_email_tracking_service.py`) -/

/-- `SimplifiedEmailTrackingService.can_send_today`: count leads with
`sent_at >= today_start`; any hit blocks the daily pool. -/
def canSendToday (s : Sys) (todayStart : Nat) : Bool × String :=
  let sentTodayCount :=
    (s.leads.filter fun l =>
      match l.sent_at with
      | some t => decide (todayStart ≤ t)
      | none => false).length
  if 0 < sentTodayCount then
    (false, "Emails already sent today. Try again tomorrow.")
  else
    (true, "Ready to send")

/-- The row conditions shared by both queries of `get_next_batch_leads`:
verified, not currently `processing`, non-null non-empty `founder_email`,
and `mail_status` not in
`['email_sent', 'reply_received', 'followup_10day_sent', 'processing']`. -/
def batchQueryBase (l : Lead) : Bool :=
  l.is_verified &&
  decide (l.mail_status ≠ sProcessing) &&
  decide (l.founder_email ≠ none) &&
  decide (l.founder_email ≠ some emptyStr) &&
  !(decide (l.mail_status = sEmailSent) || decide (l.mail_status = sReplyReceived) ||
    decide (l.mail_status = sFollowup10Sent) || decide (l.mail_status = sProcessing))

/-- The selection phase of `get_next_batch_leads`: up to `batchSize` rows
with `email_processed` null, falling back to `email_processed = false`
when that query is empty. -/
def batchSelect (s : Sys) (batchSize : Nat) : List Lead :=
  let q1 := (s.leads.filter fun l =>
    batchQueryBase l && decide (l.email_processed = none)).take batchSize
  if q1.isEmpty then
    (s.leads.filter fun l =>
      batchQueryBase l && decide (l.email_processed = some false)).take batchSize
  else q1

/-- `SimplifiedEmailTrackingService.get_next_batch_leads`: run the
selection, then lock every selected row by setting
`mail_status = 'processing'`. -/
def getNextBatchLeads (s : Sys) (batchSize : Nat) : Sys × List Lead :=
  let sel := batchSelect s batchSize
  let ids := sel.map Lead.id
  let s' :=
    if sel.isEmpty then s
    else
      { s with leads := s.leads.map fun l =>
          if l.id ∈ ids then { l with mail_status := sProcessing } else l }
  (s', sel)

/-- `SimplifiedEmailTrackingService.mark_leads_processed`. -/
def markLeadsProcessed (s : Sys) (ids : List Nat) : Sys :=
  { s with leads := s.leads.map fun l =>
      if l.id ∈ ids then { l with email_processed := some true } else l }

/-! ### Scheduled-queue sweep (`EmailSendingService.process_email_queue`) -/

/-- Aggregate result of `process_email_queue`. -/
structure QueueResult where
  sys : Sys
  calls : List WebhookCall
  processed : Nat
  sent : Nat
  skipped : Nat
  failed : Nat
deriving Repr, DecidableEq

/-- One iteration of the `process_email_queue` loop: skip leads without a
scheduled time or whose time has not arrived, gate on the inline Mon-Sat
9-18 business-hours check in the lead's stored time zone, then mark
`sending`, regenerate content and deliver to the test override address;
update the lead to `email_sent` or `failed` accordingly (failures also go
to the dead-letter queue).  A null `email_timezone` makes
`pytz.timezone(None)` raise, which the per-lead handler turns into a
`failed` status. -/
def queueStep (clock : String → Nat × Nat) (nowUtc : Nat) (lead : Lead)
    (oracle : List (Option EmailContent × RelayOutcome)) (acc : QueueResult) :
    QueueResult × List (Option EmailContent × RelayOutcome) :=
  match lead.scheduled_time with
  | none => ({ acc with skipped := acc.skipped + 1 }, oracle)
  | some st =>
    if nowUtc < st then
      ({ acc with skipped := acc.skipped + 1 }, oracle)
    else
      match lead.email_timezone with
      | none =>
        let s1 := updateLead acc.sys lead.id fun l =>
          { l with mail_status := sFailedStatus, error_message := some sTimezoneError }
        ({ acc with sys := s1, failed := acc.failed + 1 }, oracle)
      | some tzName =>
        let wd := (clock tzName).1
        let hr := (clock tzName).2
        if !(decide (wd < 6) && decide (9 ≤ hr) && decide (hr < 18)) then
          ({ acc with skipped := acc.skipped + 1 }, oracle)
        else
          let s1 := updateLead acc.sys lead.id fun l =>
            { l with mail_status := sSending }
          let pair := (popPair oracle).1
          let oracle' := (popPair oracle).2
          match pair.1 with
          | none =>
            let s2 := updateLead s1 lead.id fun l =>
              { l with mail_status := sFailedStatus, error_message := some sContentError }
            ({ acc with sys := s2, failed := acc.failed + 1 }, oracle')
          | some c =>
            let call : WebhookCall :=
              { email_to := testEmailOverride, subject := c.subject, body := c.body
                lead_id := lead.id, email_type := sInitial
                gmail_thread_id := none, gmail_message_id := none }
            let wr := sendEmailViaWebhook pair.2
            if wr.success then
              let s2 := updateLead s1 lead.id fun l =>
                { l with
                  mail_status := sEmailSent
                  sent_at := some nowUtc
                  is_personalized := c.is_personalized
                  company_website_used := c.company_website_used
                  gmail_message_id :=
                    if truthy wr.message_id then wr.message_id else l.gmail_message_id
                  gmail_thread_id :=
                    if truthy wr.gmail_thread_id then wr.gmail_thread_id else l.gmail_thread_id }
              ({ acc with
                 sys := s2
                 calls := acc.calls ++ [call]
                 sent := acc.sent + 1
                 processed := acc.processed + 1 }, oracle')
            else
              let errMsg := (wr.error).getD sUnknownError
              let s2 := updateLead s1 lead.id fun l =>
                { l with mail_status := sFailedStatus, error_message := some errMsg }
              let s3 := addFailedEmail s2 lead.id testEmailOverride c.subject c.body
                errMsg sWebhookError nowUtc
              ({ acc with
                 sys := s3
                 calls := acc.calls ++ [call]
                 failed := acc.failed + 1
                 processed := acc.processed + 1 }, oracle')

/-- The loop of `process_email_queue` over the scheduled leads. -/
def queueLoop (clock : String → Nat × Nat) (nowUtc : Nat) :
    List Lead → List (Option EmailContent × RelayOutcome) → QueueResult →
    QueueResult
  | [], _, acc => acc
  | lead :: rest, oracle, acc =>
    let next := queueStep clock nowUtc lead oracle acc
    queueLoop clock nowUtc rest next.2 next.1

/-- `EmailSendingService.process_email_queue`: run the loop over every lead
with `mail_status = 'scheduled'`. -/
def processEmailQueue (s : Sys) (clock : String → Nat × Nat) (nowUtc : Nat)
    (oracle : List (Option EmailContent × RelayOutcome)) : QueueResult :=
  queueLoop clock nowUtc (s.leads.filter fun l => decide (l.mail_status = sScheduled))
    oracle
    { sys := s, calls := [], processed := 0, sent := 0, skipped := 0, failed := 0 }

/-! ### Dead-letter retry sweep (`DeadLetterQueueService.retry_failed_emails`) -/

/-- Modelled from the spec: the `retry_ready_emails` database view (not in
the repository source) backing `retry_failed_emails`, described by the spec
as selecting all `pending` entries whose next-retry time has passed. -/
def retryReady (s : Sys) (now : Nat) : List DLQEntry :=
  s.dlq.filter fun e => decide (e.status = sPending) && decide (e.next_retry_at ≤ now)

/-- Pop the next injected relay outcome; an exhausted oracle degrades to a
timeout. -/
def popRelay (o : List RelayOutcome) : RelayOutcome × List RelayOutcome :=
  match o with
  | [] => (RelayOutcome.timeout, [])
  | r :: rest => (r, rest)

/-- Aggregate result of `retry_failed_emails`. -/
structure RetryResult where
  sys : Sys
  calls : List WebhookCall
  processed : Nat
  succeeded : Nat
  failed : Nat
deriving Repr, DecidableEq

/-- One iteration of the `retry_failed_emails` loop: mark the entry
`retrying`, re-deliver through `_send_email_immediately` with
`email_type='retry'`, then mark `resolved` on success; on failure bump the
snapshot attempt count, and either mark the entry permanently `failed`
(count reached `max_attempts`) or reschedule it `pending` with the clamped
backoff delay. -/
def retryStep (now : Nat) (e : DLQEntry) (oracle : List RelayOutcome)
    (acc : RetryResult) : RetryResult × List RelayOutcome :=
  let s1 := updateDlq acc.sys e.id fun d =>
    { d with status := sRetrying, last_attempt_at := some now }
  let relay := (popRelay oracle).1
  let oracle' := (popRelay oracle).2
  let r := sendEmailImmediately s1 e.lead_id e.email_to e.subject e.body sRetry
    true true none none relay now
  if r.ok then
    let s2 := updateDlq r.sys e.id fun d =>
      { d with status := sResolved, resolved_at := some now }
    ({ acc with
       sys := s2
       calls := acc.calls ++ r.calls
       processed := acc.processed + 1
       succeeded := acc.succeeded + 1 }, oracle')
  else
    let newCount := e.attempt_count + 1
    if maxAttempts ≤ newCount then
      let s2 := updateDlq r.sys e.id fun d =>
        { d with
          status := sFailedStatus
          last_attempt_at := some now
          error_message := overwriteIfTruthy r.error d.error_message }
      ({ acc with
         sys := s2
         calls := acc.calls ++ r.calls
         processed := acc.processed + 1
         failed := acc.failed + 1 }, oracle')
    else
      let delayIdx := min (newCount - 1) (retryDelays.length - 1)
      let nextRetry := now + retryDelays.getD delayIdx 0
      let s2 := updateDlq r.sys e.id fun d =>
        { d with
          status := sPending
          attempt_count := newCount
          next_retry_at := nextRetry
          last_attempt_at := some now
          error_message := overwriteIfTruthy r.error d.error_message }
      ({ acc with
         sys := s2
         calls := acc.calls ++ r.calls
         processed := acc.processed + 1
         failed := acc.failed + 1 }, oracle')

/-- The loop of `retry_failed_emails` over the retry-ready entries. -/
def retryLoop (now : Nat) :
    List DLQEntry → List RelayOutcome → RetryResult → RetryResult
  | [], _, acc => acc
  | e :: rest, oracle, acc =>
    let next := retryStep now e oracle acc
    retryLoop now rest next.2 next.1

/-- `DeadLetterQueueService.retry_failed_emails`: run the loop over the
retry-ready entries. -/
def retryFailedEmails (s : Sys) (now : Nat) (oracle : List RelayOutcome) :
    RetryResult :=
  retryLoop now (retryReady s now) oracle
    { sys := s, calls := [], processed := 0, succeeded := 0, failed := 0 }

/-! ### System dynamics

`Step s s'` holds when one invocation of a modelled operation (an HTTP
endpoint or a scheduler tick) turns store `s` into store `s'`; `Reach`
closes the initial stores (arbitrary ingested leads, empty dead-letter
queue) under `Step`. -/

/-- An initial store: freshly ingested leads, no dead-letter entries. -/
def initSys (leads : List Lead) : Sys :=
  { leads := leads, dlq := [], nextDlqId := 0 }

/-- One invocation of a modelled operation. -/
inductive Step : Sys → Sys → Prop where
  | send (s : Sys) (leadId : Nat) (emailType : String)
      (content : Option EmailContent) (relay : RelayOutcome) (now : Nat) :
      Step s (sendEmailToLead s leadId emailType content relay now).sys
  | dueSweep (s : Sys) (clock : String → Nat × Nat) (now : Nat)
      (oracle : List (Option EmailContent × RelayOutcome)) :
      Step s (processDueFollowups s clock now oracle).sys
  | queueSweep (s : Sys) (clock : String → Nat × Nat) (now : Nat)
      (oracle : List (Option EmailContent × RelayOutcome)) :
      Step s (processEmailQueue s clock now oracle).sys
  | dlqSweep (s : Sys) (now : Nat) (oracle : List RelayOutcome) :
      Step s (retryFailedEmails s now oracle).sys
  | reply (s : Sys) (leadId : Nat) (replyBody : String)
      (analysis : Option (String × String)) :
      Step s (analyzeReply s leadId replyBody analysis)
  | cancel (s : Sys) (leadId : Nat) :
      Step s (cancelFollowupsForLead s leadId)
  | claimBatch (s : Sys) (batchSize : Nat) :
      Step s (getNextBatchLeads s batchSize).1
  | markProcessed (s : Sys) (ids : List Nat) :
      Step s (markLeadsProcessed s ids)

/-- Stores reachable from some initial store by modelled operations. -/
inductive Reach : Sys → Prop where
  | init (leads : List Lead) : Reach (initSys leads)
  | step (s s' : Sys) : Reach s → Step s s' → Reach s'

/-! ### Concrete fixtures used by witnesses and counterexamples -/

def sNew : String := "new"

/-- A fresh lead row with identifier `i`, as ingested by discovery. -/
def baseLead (i : Nat) : Lead :=
  { id := i
    founder_email := some demoFounderEmail
    company_country := none
    is_verified := true
    email_processed := none
    mail_status := sNew
    sent_at := none
    scheduled_time := none
    email_timezone := none
    is_personalized := false
    company_website_used := false
    gmail_thread_id := none
    gmail_message_id := none
    followup_5_scheduled_date := none
    followup_10_scheduled_date := none
    followup_5_sent := none
    followup_10_sent := none
    reply_priority := none
    mail_replies := none
    error_message := none }

/-- A relay outcome representing a confirmed delivery with the given
provider identifiers. -/
def okRelay (mid tid : String) : RelayOutcome :=
  RelayOutcome.http 200 (some true) (some mid) (some tid) none

/-- A generated message used in concrete runs. -/
def demoContent : EmailContent :=
  { subject := "Hello", body := "Body text", is_personalized := true
    company_website_used := true }

def midA : String := "msg-1"
def tidA : String := "thr-1"
def midB : String := "msg-2"
def tidB : String := "thr-2"

/-! ### Batch-selection lemmas -/

/-- Every lead returned by the selection phase satisfies the shared row
conditions of both queries. -/
theorem batchQueryBase_of_mem_batchSelect (s : Sys) (n : Nat) (l : Lead)
    (hl : l ∈ batchSelect s n) : batchQueryBase l = true := by
  simp only [batchSelect] at hl
  split at hl
  · have hmem := List.mem_of_mem_take hl
    have h2 := (List.mem_filter.mp hmem).2
    rw [Bool.and_eq_true] at h2
    exact h2.1
  · have hmem := List.mem_of_mem_take hl
    have h2 := (List.mem_filter.mp hmem).2
    rw [Bool.and_eq_true] at h2
    exact h2.1

/-! ### Lookup lemmas for row updates -/

/-- `find?` by id commutes with mapping an id-preserving function over the
rows. -/
theorem find?_map_idPreserving (g : Lead → Lead) (hg : ∀ l, (g l).id = l.id)
    (j : Nat) (ls : List Lead) :
    (ls.map g).find? (fun l => decide (l.id = j)) =
      (ls.find? fun l => decide (l.id = j)).map g := by
  induction ls with
  | nil => rfl
  | cons a t ih =>
    by_cases h : a.id = j
    · rw [List.map_cons, List.find?_cons_of_pos _ (by simp [hg, h]),
        List.find?_cons_of_pos _ (by simp [h])]
      rfl
    · rw [List.map_cons, List.find?_cons_of_neg _ (by simp [hg, h]),
        List.find?_cons_of_neg _ (by simp [h])]
      exact ih

/-- Looking a row up after an id-keyed update. -/
theorem findLead_updateLead (s : Sys) (i j : Nat) (f : Lead → Lead)
    (hf : ∀ l, (f l).id = l.id) :
    findLead (updateLead s i f) j =
      (findLead s j).map fun l => if l.id = i then f l else l := by
  unfold findLead updateLead
  exact find?_map_idPreserving _
    (fun l => by by_cases h : l.id = i <;> simp [h, hf]) j s.leads

/-- A row found by id carries that id. -/
theorem findLead_id (s : Sys) (i : Nat) (l : Lead) (h : findLead s i = some l) :
    l.id = i := by
  have := List.find?_some h
  simpa using this

/-- Recording a dead-letter entry does not touch the lead rows. -/
theorem addFailedEmail_leads (s : Sys) (leadId : Nat)
    (emailTo subject body errMsg errType : String) (now : Nat) :
    (addFailedEmail s leadId emailTo subject body errMsg errType now).leads = s.leads :=
  rfl

/-- Lead lookups are unaffected by recording a dead-letter entry. -/
theorem findLead_addFailedEmail (s : Sys) (leadId : Nat)
    (emailTo subject body errMsg errType : String) (now : Nat) (j : Nat) :
    findLead (addFailedEmail s leadId emailTo subject body errMsg errType now) j =
      findLead s j :=
  rfl

/-- An id-keyed update leaves other rows' lookups unchanged. -/
theorem findLead_updateLead_ne (s : Sys) (i j : Nat) (f : Lead → Lead)
    (hf : ∀ l, (f l).id = l.id) (hne : j ≠ i) :
    findLead (updateLead s i f) j = findLead s j := by
  rw [findLead_updateLead s i j f hf]
  cases h : findLead s j with
  | none => rfl
  | some l =>
    have hid : l.id = j := findLead_id s j l h
    simp only [Option.map_some']
    rw [if_neg (by omega : ¬ l.id = i)]

/-- `_send_email_immediately` leaves other leads' lookups unchanged. -/
theorem findLead_sendEmailImmediately_ne (s : Sys) (leadId : Nat)
    (le sub bod ty : String) (ip cwu : Bool) (g m : Option String)
    (relay : RelayOutcome) (now : Nat) (j : Nat) (hne : j ≠ leadId) :
    findLead (sendEmailImmediately s leadId le sub bod ty ip cwu g m relay now).sys j =
      findLead s j := by
  cases h : (sendEmailViaWebhook relay).success with
  | false =>
    simp only [sendEmailImmediately, h, Bool.false_eq_true, if_false]
    exact findLead_addFailedEmail s leadId le sub bod _ sWebhookError now j
  | true =>
    simp only [sendEmailImmediately, h, if_true]
    by_cases hty : ty = sInitial
    · rw [if_pos hty]
      unfold scheduleFollowupsForLead
      refine Eq.trans (findLead_updateLead_ne _ _ _ _ ?_ hne)
        (findLead_updateLead_ne _ _ _ _ ?_ hne)
      · intro l; rfl
      · intro l; rfl
    · rw [if_neg hty]
      refine findLead_updateLead_ne _ _ _ _ ?_ hne
      intro l; rfl

/-- `send_email_to_lead` leaves other leads' lookups unchanged. -/
theorem findLead_sendEmailToLead_ne (s : Sys) (i : Nat) (ty : String)
    (c : Option EmailContent) (relay : RelayOutcome) (now : Nat) (j : Nat)
    (hne : j ≠ i) :
    findLead (sendEmailToLead s i ty c relay now).sys j = findLead s j := by
  cases hfind : findLead s i with
  | none => simp [sendEmailToLead, hfind]
  | some lead =>
    cases c with
    | none => simp [sendEmailToLead, hfind]
    | some cc =>
      simp only [sendEmailToLead, hfind]
      exact findLead_sendEmailImmediately_ne _ _ _ _ _ _ _ _ _ _ _ _ _ hne

/-- One due-sweep iteration leaves leads other than the item's lead
unchanged. -/
theorem findLead_dueStep_ne (clock : String → Nat × Nat) (now : Nat)
    (item : DueItem) (oracle : List (Option EmailContent × RelayOutcome))
    (acc : SweepResult) (j : Nat) (hne : j ≠ item.lead.id) :
    findLead (dueStep clock now item oracle acc).1.sys j = findLead acc.sys j := by
  simp only [dueStep]
  by_cases hrep : item.lead.mail_status = sReplyReceived
  · rw [if_pos hrep]
    by_cases hf5 : item.ftype = s5day
    · rw [if_pos hf5]
      refine findLead_updateLead_ne _ _ _ _ ?_ hne
      intro l; rfl
    · rw [if_neg hf5]
      refine findLead_updateLead_ne _ _ _ _ ?_ hne
      intro l; rfl
  · rw [if_neg hrep]
    by_cases hbh :
        (checkLeadBusinessHours item.lead.company_country clock 9 18).is_business_hours = false
    · rw [if_pos hbh]
    · rw [if_neg hbh]
      by_cases hok : (sendEmailToLead acc.sys item.lead.id
          (followupPrefixStr ++ item.ftype) (popPair oracle).1.1
          (popPair oracle).1.2 now).ok = true
      · rw [if_pos hok]
        refine Eq.trans (findLead_updateLead_ne _ _ _ _ ?_ hne)
          (findLead_sendEmailToLead_ne _ _ _ _ _ _ _ hne)
        intro l
        by_cases hf5 : item.ftype = s5day <;> simp [hf5]
      · rw [if_neg hok]
        exact findLead_sendEmailToLead_ne _ _ _ _ _ _ _ hne

/-- The due-sweep loop leaves every lead whose id is not among the due
items unchanged. -/
theorem findLead_dueLoop_ne (clock : String → Nat × Nat) (now : Nat)
    (items : List DueItem) :
    ∀ (oracle : List (Option EmailContent × RelayOutcome)) (acc : SweepResult)
      (j : Nat), (∀ it ∈ items, j ≠ it.lead.id) →
      findLead (dueLoop clock now items oracle acc).sys j = findLead acc.sys j := by
  induction items with
  | nil => intro oracle acc j _; rfl
  | cons item rest ih =>
    intro oracle acc j hj
    have h1 := findLead_dueStep_ne clock now item oracle acc j
      (hj item (List.mem_cons_self item rest))
    have h2 := ih (dueStep clock now item oracle acc).2
      (dueStep clock now item oracle acc).1 j
      (fun it hit => hj it (List.mem_cons_of_mem item hit))
    exact h2.trans h1

/-- Every due item's lead is a stored row whose status is `email_sent`
(5-day item) or `followup_5day_sent` (10-day item). -/
theorem mem_dueList_status (s : Sys) (today : Nat) (it : DueItem)
    (hit : it ∈ dueList s today) :
    it.lead ∈ s.leads ∧
    (it.lead.mail_status = sEmailSent ∨ it.lead.mail_status = sFollowup5Sent) := by
  unfold dueList at hit
  rw [List.mem_append] at hit
  rcases hit with hit | hit
  · rw [List.mem_map] at hit
    obtain ⟨l, hl, rfl⟩ := hit
    have hl2 := List.mem_filter.mp hl
    have hl3 := List.mem_filter.mp hl2.1
    refine ⟨hl3.1, Or.inl ?_⟩
    have := hl3.2
    unfold isDue5 at this
    rw [Bool.and_eq_true, Bool.and_eq_true] at this
    exact of_decide_eq_true this.1.1
  · rw [List.mem_map] at hit
    obtain ⟨l, hl, rfl⟩ := hit
    have hl2 := List.mem_filter.mp hl
    have hl3 := List.mem_filter.mp hl2.1
    refine ⟨hl3.1, Or.inr ?_⟩
    have := hl3.2
    unfold isDue10 at this
    rw [Bool.and_eq_true, Bool.and_eq_true] at this
    exact of_decide_eq_true this.1.1

/-! ### Dead-letter-queue invariants -/

/-- Every dead-letter entry respects its own attempt bound, and the bound
is the fixed `max_attempts = 3`. -/
def dlqBounded (s : Sys) : Prop :=
  ∀ e ∈ s.dlq, e.attempt_count ≤ e.max_attempts ∧ e.max_attempts = maxAttempts

/-- Well-formedness of the `failed_emails` table: distinct ids, all below
the next id the database would assign. -/
def dlqWf (s : Sys) : Prop :=
  (s.dlq.map DLQEntry.id).Nodup ∧ ∀ e ∈ s.dlq, e.id < s.nextDlqId

/-- `s'` extends `s` by only appending fresh `pending` first-attempt
entries to the dead-letter queue (the lead rows may change
arbitrarily). -/
def dlqExtend (s s' : Sys) : Prop :=
  s.nextDlqId ≤ s'.nextDlqId ∧
  ∃ t, s'.dlq = s.dlq ++ t ∧ (t.map DLQEntry.id).Nodup ∧
    ∀ e ∈ t, e.attempt_count = 1 ∧ e.max_attempts = maxAttempts ∧
      e.status = sPending ∧ s.nextDlqId ≤ e.id ∧ e.id < s'.nextDlqId

theorem dlqExtend_of_eq (s s' : Sys) (h1 : s'.dlq = s.dlq)
    (h2 : s'.nextDlqId = s.nextDlqId) : dlqExtend s s' := by
  refine ⟨le_of_eq h2.symm, [], by simp [h1], by simp, by simp⟩

theorem dlqExtend_refl (s : Sys) : dlqExtend s s :=
  dlqExtend_of_eq s s rfl rfl

theorem dlqExtend_trans {s1 s2 s3 : Sys} (h12 : dlqExtend s1 s2)
    (h23 : dlqExtend s2 s3) : dlqExtend s1 s3 := by
  obtain ⟨hn12, t1, ht1, hnd1, hb1⟩ := h12
  obtain ⟨hn23, t2, ht2, hnd2, hb2⟩ := h23
  refine ⟨le_trans hn12 hn23, t1 ++ t2, ?_, ?_, ?_⟩
  · rw [ht2, ht1, List.append_assoc]
  · rw [List.map_append, List.nodup_append]
    refine ⟨hnd1, hnd2, ?_⟩
    intro x hx1 hx2
    rw [List.mem_map] at hx1 hx2
    obtain ⟨e1, he1, rfl⟩ := hx1
    obtain ⟨e2, he2, heq⟩ := hx2
    have h1 := (hb1 e1 he1).2.2.2.2
    have h2 := (hb2 e2 he2).2.2.2.1
    omega
  · intro e he
    rw [List.mem_append] at he
    rcases he with he | he
    · obtain ⟨ha, hm, hs, hlo, hhi⟩ := hb1 e he
      exact ⟨ha, hm, hs, hlo, by omega⟩
    · obtain ⟨ha, hm, hs, hlo, hhi⟩ := hb2 e he
      exact ⟨ha, hm, hs, by omega, hhi⟩

theorem dlqExtend_addFailedEmail (s : Sys) (leadId : Nat)
    (emailTo subject body errMsg errType : String) (now : Nat) :
    dlqExtend s (addFailedEmail s leadId emailTo subject body errMsg errType now) := by
  refine ⟨Nat.le_succ _, [_], rfl, by simp, ?_⟩
  intro e he
  rw [List.mem_singleton] at he
  subst he
  exact ⟨rfl, rfl, rfl, le_refl _, Nat.lt_succ_self _⟩

theorem dlqExtend_updateLead (s : Sys) (i : Nat) (f : Lead → Lead) :
    dlqExtend s (updateLead s i f) :=
  dlqExtend_of_eq _ _ rfl rfl

theorem dlqExtend_sendEmailImmediately (s : Sys) (leadId : Nat)
    (le sub bod ty : String) (ip cwu : Bool) (g m : Option String)
    (relay : RelayOutcome) (now : Nat) :
    dlqExtend s (sendEmailImmediately s leadId le sub bod ty ip cwu g m relay now).sys := by
  cases h : (sendEmailViaWebhook relay).success with
  | false =>
    simp only [sendEmailImmediately, h, Bool.false_eq_true, if_false]
    exact dlqExtend_addFailedEmail _ _ _ _ _ _ _ _
  | true =>
    simp only [sendEmailImmediately, h, if_true]
    by_cases hty : ty = sInitial
    · rw [if_pos hty]
      exact dlqExtend_trans (dlqExtend_updateLead _ _ _) (dlqExtend_updateLead _ _ _)
    · rw [if_neg hty]
      exact dlqExtend_updateLead _ _ _

theorem dlqExtend_sendEmailToLead (s : Sys) (i : Nat) (ty : String)
    (c : Option EmailContent) (relay : RelayOutcome) (now : Nat) :
    dlqExtend s (sendEmailToLead s i ty c relay now).sys := by
  cases hfind : findLead s i with
  | none => simp only [sendEmailToLead, hfind]; exact dlqExtend_refl s
  | some lead =>
    cases c with
    | none => simp only [sendEmailToLead, hfind]; exact dlqExtend_refl s
    | some cc =>
      simp only [sendEmailToLead, hfind]
      exact dlqExtend_sendEmailImmediately _ _ _ _ _ _ _ _ _ _ _ _

theorem dlqExtend_dueStep (clock : String → Nat × Nat) (now : Nat)
    (item : DueItem) (oracle : List (Option EmailContent × RelayOutcome))
    (acc : SweepResult) :
    dlqExtend acc.sys (dueStep clock now item oracle acc).1.sys := by
  simp only [dueStep]
  by_cases hrep : item.lead.mail_status = sReplyReceived
  · rw [if_pos hrep]
    by_cases hf5 : item.ftype = s5day
    · rw [if_pos hf5]; exact dlqExtend_updateLead _ _ _
    · rw [if_neg hf5]; exact dlqExtend_updateLead _ _ _
  · rw [if_neg hrep]
    by_cases hbh :
        (checkLeadBusinessHours item.lead.company_country clock 9 18).is_business_hours = false
    · rw [if_pos hbh]; exact dlqExtend_refl _
    · rw [if_neg hbh]
      by_cases hok : (sendEmailToLead acc.sys item.lead.id
          (followupPrefixStr ++ item.ftype) (popPair oracle).1.1
          (popPair oracle).1.2 now).ok = true
      · rw [if_pos hok]
        exact dlqExtend_trans (dlqExtend_sendEmailToLead _ _ _ _ _ _)
          (dlqExtend_updateLead _ _ _)
      · rw [if_neg hok]
        exact dlqExtend_sendEmailToLead _ _ _ _ _ _

theorem dlqExtend_dueLoop (clock : String → Nat × Nat) (now : Nat)
    (items : List DueItem) :
    ∀ (oracle : List (Option EmailContent × RelayOutcome)) (acc : SweepResult),
      dlqExtend acc.sys (dueLoop clock now items oracle acc).sys := by
  induction items with
  | nil => intro oracle acc; exact dlqExtend_refl _
  | cons item rest ih =>
    intro oracle acc
    exact dlqExtend_trans (dlqExtend_dueStep clock now item oracle acc)
      (ih (dueStep clock now item oracle acc).2 (dueStep clock now item oracle acc).1)

theorem dlqExtend_processDueFollowups (s : Sys) (clock : String → Nat × Nat)
    (now : Nat) (oracle : List (Option EmailContent × RelayOutcome)) :
    dlqExtend s (processDueFollowups s clock now oracle).sys := by
  unfold processDueFollowups
  exact dlqExtend_dueLoop clock now (dueList s (now / 86400)) oracle
    { sys := s, calls := [], processed := 0, failed := 0
      skipped_timezone := 0, skipped_replied := 0 }

theorem dlqExtend_queueStep (clock : String → Nat × Nat) (nowUtc : Nat)
    (lead : Lead) (oracle : List (Option EmailContent × RelayOutcome))
    (acc : QueueResult) :
    dlqExtend acc.sys (queueStep clock nowUtc lead oracle acc).1.sys := by
  simp only [queueStep]
  split
  · exact dlqExtend_refl _
  · split
    · exact dlqExtend_refl _
    · split
      · exact dlqExtend_updateLead _ _ _
      · split
        · exact dlqExtend_refl _
        · split
          · exact dlqExtend_trans (dlqExtend_updateLead _ _ _)
              (dlqExtend_updateLead _ _ _)
          · split
            · exact dlqExtend_trans (dlqExtend_updateLead _ _ _)
                (dlqExtend_updateLead _ _ _)
            · exact dlqExtend_trans (dlqExtend_updateLead _ _ _)
                (dlqExtend_trans (dlqExtend_updateLead _ _ _)
                  (dlqExtend_addFailedEmail _ _ _ _ _ _ _ _))

theorem dlqExtend_queueLoop (clock : String → Nat × Nat) (nowUtc : Nat)
    (items : List Lead) :
    ∀ (oracle : List (Option EmailContent × RelayOutcome)) (acc : QueueResult),
      dlqExtend acc.sys (queueLoop clock nowUtc items oracle acc).sys := by
  induction items with
  | nil => intro oracle acc; exact dlqExtend_refl _
  | cons lead rest ih =>
    intro oracle acc
    exact dlqExtend_trans (dlqExtend_queueStep clock nowUtc lead oracle acc)
      (ih (queueStep clock nowUtc lead oracle acc).2
        (queueStep clock nowUtc lead oracle acc).1)

theorem dlqExtend_processEmailQueue (s : Sys) (clock : String → Nat × Nat)
    (nowUtc : Nat) (oracle : List (Option EmailContent × RelayOutcome)) :
    dlqExtend s (processEmailQueue s clock nowUtc oracle).sys := by
  unfold processEmailQueue
  exact dlqExtend_queueLoop clock nowUtc
    (s.leads.filter fun l => decide (l.mail_status = sScheduled)) oracle
    { sys := s, calls := [], processed := 0, sent := 0, skipped := 0, failed := 0 }

theorem analyzeReply_dlq_eq (s : Sys) (i : Nat) (b : String)
    (a : Option (String × String)) :
    (analyzeReply s i b a).dlq = s.dlq ∧ (analyzeReply s i b a).nextDlqId = s.nextDlqId := by
  unfold analyzeReply
  split
  · exact ⟨rfl, rfl⟩
  · split <;> exact ⟨rfl, rfl⟩

theorem getNextBatchLeads_dlq_eq (s : Sys) (n : Nat) :
    (getNextBatchLeads s n).1.dlq = s.dlq ∧
    (getNextBatchLeads s n).1.nextDlqId = s.nextDlqId := by
  simp only [getNextBatchLeads]
  split <;> exact ⟨rfl, rfl⟩

/-! Consequences of `dlqExtend`. -/

theorem dlqExtend_mem {s s' : Sys} (h : dlqExtend s s') {e : DLQEntry}
    (he : e ∈ s.dlq) : e ∈ s'.dlq := by
  obtain ⟨-, t, ht, -, -⟩ := h
  rw [ht, List.mem_append]
  exact Or.inl he

theorem dlqExtend_bounded {s s' : Sys} (h : dlqExtend s s')
    (hb : dlqBounded s) : dlqBounded s' := by
  obtain ⟨-, t, ht, -, hfresh⟩ := h
  intro e he
  rw [ht, List.mem_append] at he
  rcases he with he | he
  · exact hb e he
  · obtain ⟨ha, hm, -, -, -⟩ := hfresh e he
    rw [ha, hm]
    exact ⟨by decide, rfl⟩

theorem dlqExtend_wf {s s' : Sys} (h : dlqExtend s s') (hw : dlqWf s) :
    dlqWf s' := by
  obtain ⟨hn, t, ht, hnd, hfresh⟩ := h
  obtain ⟨hwnd, hwlt⟩ := hw
  constructor
  · rw [ht, List.map_append, List.nodup_append]
    refine ⟨hwnd, hnd, ?_⟩
    intro x hx1 hx2
    rw [List.mem_map] at hx1 hx2
    obtain ⟨e1, he1, rfl⟩ := hx1
    obtain ⟨e2, he2, heq⟩ := hx2
    have h1 := hwlt e1 he1
    have h2 := (hfresh e2 he2).2.2.2.1
    omega
  · intro e he
    rw [ht, List.mem_append] at he
    rcases he with he | he
    · have := hwlt e he
      omega
    · exact (hfresh e he).2.2.2.2

/-! Retry-sweep preservation lemmas. -/

theorem mem_updateDlq_of_ne (s : Sys) (i : Nat) (f : DLQEntry → DLQEntry)
    (e : DLQEntry) (he : e ∈ s.dlq) (hne : e.id ≠ i) :
    e ∈ (updateDlq s i f).dlq := by
  have hfix : (fun d => if d.id = i then f d else d) e = e := if_neg hne
  exact hfix ▸ List.mem_map_of_mem _ he

theorem sendEmailImmediately_ok (s : Sys) (leadId : Nat)
    (le sub bod ty : String) (ip cwu : Bool) (g m : Option String)
    (relay : RelayOutcome) (now : Nat) :
    (sendEmailImmediately s leadId le sub bod ty ip cwu g m relay now).ok =
      (sendEmailViaWebhook relay).success := by
  cases h : (sendEmailViaWebhook relay).success <;> simp [sendEmailImmediately, h]

/-- A retry iteration keyed on entry `e` leaves entries with other ids in
the table. -/
theorem mem_retryStep_of_ne (now : Nat) (e : DLQEntry)
    (oracle : List RelayOutcome) (acc : RetryResult) (w : DLQEntry)
    (hw : w ∈ acc.sys.dlq) (hne : w.id ≠ e.id) :
    w ∈ (retryStep now e oracle acc).1.sys.dlq := by
  have h1 : w ∈ (updateDlq acc.sys e.id fun d =>
      { d with status := sRetrying, last_attempt_at := some now }).dlq :=
    mem_updateDlq_of_ne _ _ _ _ hw hne
  have h2 : w ∈ (sendEmailImmediately
      (updateDlq acc.sys e.id fun d =>
        { d with status := sRetrying, last_attempt_at := some now })
      e.lead_id e.email_to e.subject e.body sRetry true true none none
      (popRelay oracle).1 now).sys.dlq :=
    dlqExtend_mem (dlqExtend_sendEmailImmediately _ _ _ _ _ _ _ _ _ _ _ _) h1
  simp only [retryStep]
  split
  · exact mem_updateDlq_of_ne _ _ _ _ h2 hne
  · split
    · exact mem_updateDlq_of_ne _ _ _ _ h2 hne
    · exact mem_updateDlq_of_ne _ _ _ _ h2 hne

/-- The retry loop leaves every entry whose id is not among the processed
items in the table. -/
theorem mem_retryLoop_of_ne (now : Nat) (items : List DLQEntry) :
    ∀ (oracle : List RelayOutcome) (acc : RetryResult) (w : DLQEntry),
      w ∈ acc.sys.dlq → (∀ it ∈ items, w.id ≠ it.id) →
      w ∈ (retryLoop now items oracle acc).sys.dlq := by
  induction items with
  | nil => intro oracle acc w hw _; exact hw
  | cons e rest ih =>
    intro oracle acc w hw hids
    exact ih (retryStep now e oracle acc).2 (retryStep now e oracle acc).1 w
      (mem_retryStep_of_ne now e oracle acc w hw (hids e (List.mem_cons_self e rest)))
      (fun it hit => hids it (List.mem_cons_of_mem e hit))

theorem updateDlq_map_id (s : Sys) (i : Nat) (f : DLQEntry → DLQEntry)
    (hf : ∀ d, (f d).id = d.id) :
    (updateDlq s i f).dlq.map DLQEntry.id = s.dlq.map DLQEntry.id := by
  show (s.dlq.map fun d => if d.id = i then f d else d).map DLQEntry.id = _
  rw [List.map_map]
  apply List.map_congr_left
  intro d _
  by_cases h : d.id = i <;> simp [h, hf]

theorem dlqWf_updateDlq (s : Sys) (i : Nat) (f : DLQEntry → DLQEntry)
    (hf : ∀ d, (f d).id = d.id) (hw : dlqWf s) : dlqWf (updateDlq s i f) := by
  constructor
  · rw [updateDlq_map_id s i f hf]
    exact hw.1
  · intro e he
    obtain ⟨d, hd, rfl⟩ := List.mem_map.mp he
    by_cases h : d.id = i
    · rw [if_pos h, hf]
      exact hw.2 d hd
    · rw [if_neg h]
      exact hw.2 d hd

theorem dlqBounded_updateDlq (s : Sys) (i : Nat) (f : DLQEntry → DLQEntry)
    (hb : dlqBounded s)
    (hf : ∀ d ∈ s.dlq, (f d).attempt_count ≤ (f d).max_attempts ∧
      (f d).max_attempts = maxAttempts) :
    dlqBounded (updateDlq s i f) := by
  intro e he
  obtain ⟨d, hd, rfl⟩ := List.mem_map.mp he
  by_cases h : d.id = i
  · rw [if_pos h]
    exact hf d hd
  · rw [if_neg h]
    exact hb d hd

/-- One retry iteration preserves well-formedness and attempt
boundedness. -/
theorem retryStep_wf_bounded (now : Nat) (e : DLQEntry)
    (oracle : List RelayOutcome) (acc : RetryResult)
    (hw : dlqWf acc.sys) (hb : dlqBounded acc.sys) :
    dlqWf (retryStep now e oracle acc).1.sys ∧
    dlqBounded (retryStep now e oracle acc).1.sys := by
  have hw1 : dlqWf (updateDlq acc.sys e.id fun d =>
      { d with status := sRetrying, last_attempt_at := some now }) :=
    dlqWf_updateDlq _ _ _ (fun d => rfl) hw
  have hb1 : dlqBounded (updateDlq acc.sys e.id fun d =>
      { d with status := sRetrying, last_attempt_at := some now }) :=
    dlqBounded_updateDlq _ _ _ hb (fun d hd => hb d hd)
  have hext := dlqExtend_sendEmailImmediately
    (updateDlq acc.sys e.id fun d =>
      { d with status := sRetrying, last_attempt_at := some now })
    e.lead_id e.email_to e.subject e.body sRetry true true none none
    (popRelay oracle).1 now
  have hw2 := dlqExtend_wf hext hw1
  have hb2 := dlqExtend_bounded hext hb1
  simp only [retryStep]
  split
  · exact ⟨dlqWf_updateDlq _ _ _ (fun d => rfl) hw2,
      dlqBounded_updateDlq _ _ _ hb2 (fun d hd => hb2 d hd)⟩
  · split
    · exact ⟨dlqWf_updateDlq _ _ _ (fun d => rfl) hw2,
        dlqBounded_updateDlq _ _ _ hb2 (fun d hd => hb2 d hd)⟩
    · rename_i hok hmax
      refine ⟨dlqWf_updateDlq _ _ _ (fun d => rfl) hw2,
        dlqBounded_updateDlq _ _ _ hb2 ?_⟩
      intro d hd
      have hd3 := (hb2 d hd).2
      refine ⟨?_, hd3⟩
      show e.attempt_count + 1 ≤ d.max_attempts
      rw [hd3]
      simp only [maxAttempts] at hmax ⊢
      omega

/-- The retry loop preserves well-formedness and attempt boundedness. -/
theorem retryLoop_wf_bounded (now : Nat) (items : List DLQEntry) :
    ∀ (oracle : List RelayOutcome) (acc : RetryResult),
      dlqWf acc.sys → dlqBounded acc.sys →
      dlqWf (retryLoop now items oracle acc).sys ∧
      dlqBounded (retryLoop now items oracle acc).sys := by
  induction items with
  | nil => intro oracle acc hw hb; exact ⟨hw, hb⟩
  | cons e rest ih =>
    intro oracle acc hw hb
    obtain ⟨hw', hb'⟩ := retryStep_wf_bounded now e oracle acc hw hb
    exact ih (retryStep now e oracle acc).2 (retryStep now e oracle acc).1 hw' hb'

/-! Failing deliveries never touch the lead rows during a retry sweep. -/

theorem sendEmailImmediately_leads_of_fail (s : Sys) (leadId : Nat)
    (le sub bod ty : String) (ip cwu : Bool) (g m : Option String)
    (relay : RelayOutcome) (now : Nat)
    (h : (sendEmailViaWebhook relay).success = false) :
    (sendEmailImmediately s leadId le sub bod ty ip cwu g m relay now).sys.leads =
      s.leads := by
  simp only [sendEmailImmediately, h, Bool.false_eq_true, if_false]
  rfl

theorem retryStep_leads_of_fail (now : Nat) (e : DLQEntry)
    (oracle : List RelayOutcome) (acc : RetryResult)
    (h : (sendEmailViaWebhook (popRelay oracle).1).success = false) :
    (retryStep now e oracle acc).1.sys.leads = acc.sys.leads := by
  have hok : (sendEmailImmediately
      (updateDlq acc.sys e.id fun d =>
        { d with status := sRetrying, last_attempt_at := some now })
      e.lead_id e.email_to e.subject e.body sRetry true true none none
      (popRelay oracle).1 now).ok = false := by
    rw [sendEmailImmediately_ok, h]
  have hleads := sendEmailImmediately_leads_of_fail
    (updateDlq acc.sys e.id fun d =>
      { d with status := sRetrying, last_attempt_at := some now })
    e.lead_id e.email_to e.subject e.body sRetry true true none none
    (popRelay oracle).1 now h
  simp only [retryStep, hok, Bool.false_eq_true, if_false]
  split <;> exact hleads

theorem popRelay_all_fail (oracle : List RelayOutcome)
    (h : ∀ o ∈ oracle, (sendEmailViaWebhook o).success = false) :
    (sendEmailViaWebhook (popRelay oracle).1).success = false ∧
    ∀ o ∈ (popRelay oracle).2, (sendEmailViaWebhook o).success = false := by
  cases oracle with
  | nil => exact ⟨rfl, by simp [popRelay]⟩
  | cons o rest =>
    exact ⟨h o (List.mem_cons_self o rest),
      fun o' ho' => h o' (List.mem_cons_of_mem o ho')⟩

theorem retryLoop_leads_of_all_fail (now : Nat) (items : List DLQEntry) :
    ∀ (oracle : List RelayOutcome) (acc : RetryResult),
      (∀ o ∈ oracle, (sendEmailViaWebhook o).success = false) →
      (retryLoop now items oracle acc).sys.leads = acc.sys.leads := by
  induction items with
  | nil => intro oracle acc _; rfl
  | cons e rest ih =>
    intro oracle acc hall
    obtain ⟨hhd, htl⟩ := popRelay_all_fail oracle hall
    have hsnd : (retryStep now e oracle acc).2 = (popRelay oracle).2 := by
      simp only [retryStep]
      split
      · rfl
      · split <;> rfl
    rw [show retryLoop now (e :: rest) oracle acc =
        retryLoop now rest (retryStep now e oracle acc).2
          (retryStep now e oracle acc).1 from rfl]
    rw [ih (retryStep now e oracle acc).2 (retryStep now e oracle acc).1
      (by rw [hsnd]; exact htl)]
    exact retryStep_leads_of_fail now e oracle acc hhd

/-! Step-level and reachability-level invariants. -/

theorem markLeadsProcessed_dlq_eq (s : Sys) (ids : List Nat) :
    (markLeadsProcessed s ids).dlq = s.dlq ∧
    (markLeadsProcessed s ids).nextDlqId = s.nextDlqId :=
  ⟨rfl, rfl⟩

/-- Every modelled operation preserves dead-letter well-formedness and
attempt boundedness. -/
theorem step_dlq_invariant {s s' : Sys} (hstep : Step s s')
    (hw : dlqWf s) (hb : dlqBounded s) : dlqWf s' ∧ dlqBounded s' := by
  cases hstep with
  | send leadId emailType content relay now =>
    have h := dlqExtend_sendEmailToLead s leadId emailType content relay now
    exact ⟨dlqExtend_wf h hw, dlqExtend_bounded h hb⟩
  | dueSweep clock now oracle =>
    have h := dlqExtend_processDueFollowups s clock now oracle
    exact ⟨dlqExtend_wf h hw, dlqExtend_bounded h hb⟩
  | queueSweep clock now oracle =>
    have h := dlqExtend_processEmailQueue s clock now oracle
    exact ⟨dlqExtend_wf h hw, dlqExtend_bounded h hb⟩
  | dlqSweep now oracle =>
    unfold retryFailedEmails
    exact retryLoop_wf_bounded now (retryReady s now) oracle
      { sys := s, calls := [], processed := 0, succeeded := 0, failed := 0 } hw hb
  | reply leadId replyBody analysis =>
    have h := analyzeReply_dlq_eq s leadId replyBody analysis
    have hext := dlqExtend_of_eq _ _ h.1 h.2
    exact ⟨dlqExtend_wf hext hw, dlqExtend_bounded hext hb⟩
  | cancel leadId =>
    have hext := dlqExtend_of_eq s (cancelFollowupsForLead s leadId) rfl rfl
    exact ⟨dlqExtend_wf hext hw, dlqExtend_bounded hext hb⟩
  | claimBatch batchSize =>
    have h := getNextBatchLeads_dlq_eq s batchSize
    have hext := dlqExtend_of_eq _ _ h.1 h.2
    exact ⟨dlqExtend_wf hext hw, dlqExtend_bounded hext hb⟩
  | markProcessed ids =>
    have hext := dlqExtend_of_eq s (markLeadsProcessed s ids) rfl rfl
    exact ⟨dlqExtend_wf hext hw, dlqExtend_bounded hext hb⟩

/-- Every reachable store is dead-letter well-formed and attempt
bounded. -/
theorem reach_dlq_invariant (s : Sys) (h : Reach s) : dlqWf s ∧ dlqBounded s := by
  induction h with
  | init leads =>
    refine ⟨⟨?_, ?_⟩, ?_⟩
    · simp [initSys]
    · intro e he
      simp [initSys] at he
    · intro e he
      simp [initSys] at he
  | step s s' hr hstep ih => exact step_dlq_invariant hstep ih.1 ih.2

/-- No modelled operation mutates a `resolved` or `failed` dead-letter
entry: the exact row survives every step. -/
theorem step_preserves_terminal {s s' : Sys} (hstep : Step s s') (hw : dlqWf s) :
    ∀ e ∈ s.dlq, e.status = sResolved ∨ e.status = sFailedStatus → e ∈ s'.dlq := by
  cases hstep with
  | send leadId emailType content relay now =>
    intro e he _
    exact dlqExtend_mem (dlqExtend_sendEmailToLead s leadId emailType content relay now) he
  | dueSweep clock now oracle =>
    intro e he _
    exact dlqExtend_mem (dlqExtend_processDueFollowups s clock now oracle) he
  | queueSweep clock now oracle =>
    intro e he _
    exact dlqExtend_mem (dlqExtend_processEmailQueue s clock now oracle) he
  | dlqSweep now oracle =>
    intro e he hterm
    unfold retryFailedEmails
    apply mem_retryLoop_of_ne now (retryReady s now) oracle _ e he
    intro it hit heq
    have hit2 := List.mem_filter.mp hit
    have hpend : it.status = sPending := by
      have := hit2.2
      rw [Bool.and_eq_true] at this
      exact of_decide_eq_true this.1
    have : e = it := List.inj_on_of_nodup_map hw.1 he hit2.1 heq
    rw [← this] at hpend
    rcases hterm with hterm | hterm <;> rw [hterm] at hpend <;>
      exact absurd hpend (by decide)
  | reply leadId replyBody analysis =>
    intro e he _
    exact dlqExtend_mem (dlqExtend_of_eq _ _ (analyzeReply_dlq_eq s leadId replyBody analysis).1
      (analyzeReply_dlq_eq s leadId replyBody analysis).2) he
  | cancel leadId =>
    intro e he _
    exact dlqExtend_mem (dlqExtend_of_eq s (cancelFollowupsForLead s leadId) rfl rfl) he
  | claimBatch batchSize =>
    intro e he _
    exact dlqExtend_mem (dlqExtend_of_eq _ _ (getNextBatchLeads_dlq_eq s batchSize).1
      (getNextBatchLeads_dlq_eq s batchSize).2) he
  | markProcessed ids =>
    intro e he _
    exact dlqExtend_mem (dlqExtend_of_eq s (markLeadsProcessed s ids) rfl rfl) he

/-- A permanently failed entry is never selected for retry again. -/
theorem failed_not_retryReady (s : Sys) (now : Nat) (e : DLQEntry)
    (_he : e ∈ s.dlq) (hf : e.status = sFailedStatus) : e ∉ retryReady s now := by
  intro hmem
  have h2 := (List.mem_filter.mp hmem).2
  rw [Bool.and_eq_true] at h2
  have hp := of_decide_eq_true h2.1
  rw [hf] at hp
  exact absurd hp (by decide)

/-! ### Webhook-call trace lemmas -/

/-- `_send_email_immediately` places exactly one webhook call, with the
recipient it was handed. -/
theorem sendEmailImmediately_calls (s : Sys) (leadId : Nat)
    (leadEmail subject body emailType : String) (isP cwu : Bool)
    (g m : Option String) (relay : RelayOutcome) (now : Nat) :
    (sendEmailImmediately s leadId leadEmail subject body emailType isP cwu
        g m relay now).calls =
      [{ email_to := leadEmail, subject := subject, body := body
         lead_id := leadId, email_type := emailType
         gmail_thread_id := g, gmail_message_id := m }] := by
  cases h : (sendEmailViaWebhook relay).success <;>
    simp [sendEmailImmediately, h]

/-- Every webhook call placed by `send_email_to_lead` carries the
hard-coded test recipient. -/
theorem sendEmailToLead_calls_override (s : Sys) (i : Nat) (ty : String)
    (c : Option EmailContent) (relay : RelayOutcome) (now : Nat) :
    ∀ call ∈ (sendEmailToLead s i ty c relay now).calls,
      call.email_to = testEmailOverride := by
  intro call hc
  cases hfind : findLead s i with
  | none =>
    simp only [sendEmailToLead, hfind] at hc
    simp at hc
  | some lead =>
    cases c with
    | none =>
      simp only [sendEmailToLead, hfind] at hc
      simp at hc
    | some cc =>
      simp only [sendEmailToLead, hfind, sendEmailImmediately_calls,
        List.mem_singleton] at hc
      subst hc
      rfl

/-- Every webhook call a queue-loop iteration appends carries the
hard-coded test recipient. -/
theorem queueStep_calls_override (clock : String → Nat × Nat) (nowUtc : Nat)
    (lead : Lead) (oracle : List (Option EmailContent × RelayOutcome))
    (acc : QueueResult) :
    ∀ call ∈ (queueStep clock nowUtc lead oracle acc).1.calls,
      call ∈ acc.calls ∨ call.email_to = testEmailOverride := by
  intro call hc
  unfold queueStep at hc
  cases hst : lead.scheduled_time with
  | none =>
    simp only [hst] at hc
    exact Or.inl hc
  | some st =>
    simp only [hst] at hc
    split at hc
    · exact Or.inl hc
    · cases htz : lead.email_timezone with
      | none =>
        simp only [htz] at hc
        exact Or.inl hc
      | some tz =>
        simp only [htz] at hc
        split at hc
        · exact Or.inl hc
        · cases hcontent : (popPair oracle).1.1 with
          | none =>
            simp only [hcontent] at hc
            exact Or.inl hc
          | some cc =>
            simp only [hcontent] at hc
            split at hc <;>
            · rw [List.mem_append] at hc
              rcases hc with hc | hc
              · exact Or.inl hc
              · rw [List.mem_singleton] at hc
                subst hc
                exact Or.inr rfl

/-- Every webhook call accumulated by the queue loop either predates the
loop or carries the hard-coded test recipient. -/
theorem queueLoop_calls_override (clock : String → Nat × Nat) (nowUtc : Nat)
    (items : List Lead) :
    ∀ (oracle : List (Option EmailContent × RelayOutcome)) (acc : QueueResult),
      ∀ call ∈ (queueLoop clock nowUtc items oracle acc).calls,
        call ∈ acc.calls ∨ call.email_to = testEmailOverride := by
  induction items with
  | nil => intro oracle acc call hc; exact Or.inl hc
  | cons lead rest ih =>
    intro oracle acc call hc
    have hstep := queueStep_calls_override clock nowUtc lead oracle acc
    have := ih (queueStep clock nowUtc lead oracle acc).2
      (queueStep clock nowUtc lead oracle acc).1 call hc
    rcases this with hmem | hover
    · exact hstep call hmem
    · exact Or.inr hover

/-! ### General lemmas about the business-hours oracle -/

/-- The value of `is_business_hours`: Monday-Saturday, start inclusive, and
the exclusive end hour is the caller's end hour clamped to 18. -/
theorem isBusinessHours_true_iff (d h s e : Nat) :
    (isBusinessHours d h s e).is_business_hours = true ↔
      (d < 6 ∧ s ≤ h ∧ h < min e 18) := by
  simp only [isBusinessHours, Bool.and_eq_true, decide_eq_true_eq]
  rcases le_or_lt 18 e with h18 | h18
  · rw [if_pos h18]
    omega
  · rw [if_neg (by omega : ¬ 18 ≤ e)]
    omega

/-! ### C2 -/

/-- C2: with window start 9, end 18 and the hard-coded Monday-Saturday
business days, `is_business_hours` rejects every Sunday instant, accepts
Monday-Saturday instants with local hour in `[9, 18)`, and rejects
Monday-Saturday instants at hour 18 or later or before 9. -/
theorem business_hours_window_9_18 (d h : Nat) :
    (d = 6 → (isBusinessHours d h 9 18).is_business_hours = false) ∧
    (d < 6 → 9 ≤ h → h < 18 → (isBusinessHours d h 9 18).is_business_hours = true) ∧
    (d < 6 → 18 ≤ h → (isBusinessHours d h 9 18).is_business_hours = false) ∧
    (d < 6 → h < 9 → (isBusinessHours d h 9 18).is_business_hours = false) := by
  have hval := isBusinessHours_true_iff d h 9 18
  constructor
  · intro hd
    cases hb : (isBusinessHours d h 9 18).is_business_hours
    · rfl
    · exact absurd (hval.mp hb).1 (by omega)
  constructor
  · intro hd h9 h18
    exact hval.mpr ⟨hd, h9, by omega⟩
  constructor
  · intro hd h18
    cases hb : (isBusinessHours d h 9 18).is_business_hours
    · rfl
    · exact absurd (hval.mp hb).2.2 (by omega)
  · intro hd h9
    cases hb : (isBusinessHours d h 9 18).is_business_hours
    · rfl
    · exact absurd (hval.mp hb).2.1 (by omega)

/-- Witness for C2: Sunday 10:00 rejected, Tuesday 09:00 accepted,
Tuesday 18:00 rejected, Tuesday 08:00 rejected. -/
theorem business_hours_window_9_18_witness :
    (isBusinessHours 6 10 9 18).is_business_hours = false ∧
    (isBusinessHours 1 9 9 18).is_business_hours = true ∧
    (isBusinessHours 1 18 9 18).is_business_hours = false ∧
    (isBusinessHours 1 8 9 18).is_business_hours = false :=
  ⟨(business_hours_window_9_18 6 10).1 rfl,
   (business_hours_window_9_18 1 9).2.1 (by omega) (by omega) (by omega),
   (business_hours_window_9_18 1 18).2.2.1 (by omega) (by omega),
   (business_hours_window_9_18 1 8).2.2.2 (by omega) (by omega)⟩

/-! ### C3 -/

/-- C3 counterexample: the claim says a caller passing `end_hour = 19`
gets `allowed = true` for a business-day instant at local hour 18; the
service clamps the end hour to 18 and answers `false` (Tuesday 18:00,
window 9-19). -/
theorem business_hours_custom_end_counterexample :
    (isBusinessHours 1 18 9 19).is_business_hours = false := by decide

/-- C3 amended: `is_business_hours` honors the caller's window only up to
an end hour of 18: the exclusive upper bound actually used is
`min end_hour 18`, so windows ending at or before 18 are honored exactly,
while an end hour of 19 is clamped to 18. -/
theorem business_hours_end_hour_clamped (d h s e : Nat) :
    (isBusinessHours d h s e).is_business_hours = true ↔
      (d < 6 ∧ s ≤ h ∧ h < min e 18) :=
  isBusinessHours_true_iff d h s e

/-! ### C7 -/

/-- C7: the delivery gateway adapter confirms success only on an explicit
positive acknowledgment: any HTTP relay response without a truthy provider
`message_id` yields `success = false`, even when the transport status is
200 or 201 and even when the relay set `success = true` itself. -/
theorem webhook_requires_message_id (code : Nat) (flag : Option Bool)
    (mid gtid tid : Option String) (h : truthy mid = false) :
    (sendEmailViaWebhook (RelayOutcome.http code flag mid gtid tid)).success = false := by
  have hm : (truthy mid && truthy (orOpt gtid tid)) = false := by
    rw [h]
    rfl
  simp only [sendEmailViaWebhook]
  split
  · rfl
  · split
    · split
      · simp [hm]
      · split
        · rename_i hmid
          rw [h] at hmid
          exact absurd hmid (by simp)
        · rfl
    · rfl

/-- Witness for C7: a 200 response with `success = true` but no
`message_id` is not treated as delivered. -/
theorem webhook_requires_message_id_witness :
    (sendEmailViaWebhook (RelayOutcome.http 200 (some true) none none none)).success = false :=
  webhook_requires_message_id 200 (some true) none none none (by decide)

/-! ### C8 -/

/-- C8: the automatic daily pool runs at most once per calendar day: if any
lead carries a sent timestamp on or after the start of today,
`can_send_today` answers `false`; if no lead was sent on or after that
instant (for example when the check runs the next day), it answers
`true`. -/
theorem can_send_today_quota (s : Sys) (todayStart : Nat) :
    ((∃ l ∈ s.leads, ∃ t, l.sent_at = some t ∧ todayStart ≤ t) →
      (canSendToday s todayStart).1 = false) ∧
    ((∀ l ∈ s.leads, ∀ t, l.sent_at = some t → t < todayStart) →
      (canSendToday s todayStart).1 = true) := by
  constructor
  · rintro ⟨l, hl, t, hsent, hle⟩
    have hmem : l ∈ s.leads.filter fun l =>
        match l.sent_at with
        | some t => decide (todayStart ≤ t)
        | none => false := by
      rw [List.mem_filter]
      refine ⟨hl, ?_⟩
      rw [hsent]
      simpa using hle
    have hpos := List.length_pos_of_mem hmem
    simp only [canSendToday, if_pos hpos]
  · intro hall
    have hnil : (s.leads.filter fun l =>
        match l.sent_at with
        | some t => decide (todayStart ≤ t)
        | none => false) = [] := by
      rw [List.filter_eq_nil_iff]
      intro l hl
      cases hsent : l.sent_at with
      | none => simp
      | some t =>
        have := hall l hl t hsent
        simpa using this
    simp [canSendToday, hnil]

/-! ### C1 -/

/-- A lead that already went through its initial send, with stored thread
linkage. -/
def alreadySentLead : Lead :=
  { baseLead 0 with
    mail_status := sEmailSent
    sent_at := some 100
    gmail_thread_id := some tidA
    gmail_message_id := some midA }

/-- A store whose single lead already went through its initial send. -/
def alreadySentSys : Sys :=
  initSys [alreadySentLead]

/-- A second initial-send attempt against the already-sent lead, with the
relay confirming delivery. -/
def secondInitialSend : SendOutcome :=
  sendEmailToLead alreadySentSys 0 sInitial (some demoContent) (okRelay midB tidB) 1000

/-- C1 counterexample: a second `send_email_to_lead` with
`email_type='initial'` against a lead already in `email_sent` is neither a
no-op nor rejected: it reports success, places one more initial delivery
call to the webhook, and rewrites the lead's send bookkeeping
(`sent_at` moves to the new attempt's timestamp). -/
theorem no_double_initial_send_counterexample :
    secondInitialSend.ok = true ∧
    (secondInitialSend.calls.map fun c => c.email_type) = [sInitial] ∧
    (findLead secondInitialSend.sys 0).map Lead.sent_at = some (some 1000) ∧
    (findLead alreadySentSys 0).map Lead.sent_at = some (some 100) := by
  decide

/-- C1 amended: `send_email_to_lead` itself performs no `mail_status`
guard, so a direct second initial send against an `email_sent` lead is
executed again; duplicate initial sends are prevented only by batch
selection: `get_next_batch_leads` never returns a lead whose `mail_status`
is `email_sent`, `reply_received`, `followup_10day_sent` or
`processing`. -/
theorem no_double_initial_send_amended (s : Sys) (n : Nat) (l : Lead)
    (hl : l ∈ (getNextBatchLeads s n).2) :
    l.mail_status ≠ sEmailSent ∧ l.mail_status ≠ sReplyReceived ∧
    l.mail_status ≠ sFollowup10Sent ∧ l.mail_status ≠ sProcessing := by
  have hb : batchQueryBase l = true := batchQueryBase_of_mem_batchSelect s n l hl
  refine ⟨?_, ?_, ?_, ?_⟩ <;> intro h <;> simp [batchQueryBase, h] at hb

/-- Witness for C1's amended statement: a fresh verified lead is selected
by the batch query and is in none of the excluded statuses. -/
theorem no_double_initial_send_amended_witness :
    (baseLead 0).mail_status ≠ sEmailSent ∧
    (baseLead 0).mail_status ≠ sReplyReceived ∧
    (baseLead 0).mail_status ≠ sFollowup10Sent ∧
    (baseLead 0).mail_status ≠ sProcessing :=
  no_double_initial_send_amended (initSys [baseLead 0]) 400 (baseLead 0) (by decide)

/-! ### C6 -/

/-- A confirmed 5-day follow-up delivery for the already-sent lead, with
the relay reporting a different thread id than the stored one. -/
def followupThreadRun : SendOutcome :=
  sendEmailToLead alreadySentSys 0 sFollowup5day (some demoContent)
    (okRelay midB tidB) 2000

/-- C6 counterexample: the follow-up send does pass the stored thread id to
the gateway, but the claim that the stored thread id afterwards still
equals the original is false: the service overwrites it with whatever
thread id the relay returned for the follow-up. -/
theorem thread_continuity_counterexample :
    (followupThreadRun.calls.map fun c => c.gmail_thread_id) = [some tidA] ∧
    (findLead followupThreadRun.sys 0).map Lead.gmail_thread_id = some (some tidB) ∧
    tidA ≠ tidB := by
  decide

/-- C6 amended: a 5-day follow-up send for a lead with stored thread id `T`
passes `threadRef = T` to the delivery gateway; afterwards the stored
thread id equals the thread id returned by the relay for the follow-up
when the delivery was confirmed and returned one, and remains `T`
otherwise — the linkage is overwritten on every confirmed send that
returns a thread id, not set once. -/
theorem thread_continuity_amended (s : Sys) (i : Nat) (l : Lead) (T : String)
    (c : EmailContent) (relay : RelayOutcome) (now : Nat)
    (hl : findLead s i = some l) (hT : l.gmail_thread_id = some T) :
    (∀ call ∈ (sendEmailToLead s i sFollowup5day (some c) relay now).calls,
        call.gmail_thread_id = some T) ∧
    (∀ l', findLead (sendEmailToLead s i sFollowup5day (some c) relay now).sys i =
        some l' →
      l'.gmail_thread_id =
        if (sendEmailViaWebhook relay).success = true ∧
            truthy (sendEmailViaWebhook relay).gmail_thread_id = true then
          (sendEmailViaWebhook relay).gmail_thread_id
        else some T) := by
  have hid : l.id = i := findLead_id s i l hl
  have hsw : strStartsWith sFollowup5day followupPrefixStr = true := by decide
  have hne1 : ¬(sFollowup5day = sInitial) := by decide
  simp only [sendEmailToLead, hl, hsw, if_true]
  cases hws : (sendEmailViaWebhook relay).success with
  | false =>
    simp only [sendEmailImmediately, hws, Bool.false_eq_true, if_false]
    constructor
    · intro call hc
      simp only [List.mem_singleton] at hc
      subst hc
      exact hT
    · intro l' hl'
      rw [findLead_addFailedEmail, hl] at hl'
      cases hl'
      simp [hT]
  | true =>
    simp only [sendEmailImmediately, hws, if_true, if_neg hne1]
    constructor
    · intro call hc
      simp only [List.mem_singleton] at hc
      subst hc
      exact hT
    · intro l' hl'
      rw [findLead_updateLead _ _ _ _
        (fun l0 => by by_cases hsplit : sFollowup5day = sInitial <;> rfl), hl] at hl'
      simp only [Option.map_some', hid, if_pos rfl] at hl'
      cases hl'
      simp only [hws, true_and]
      by_cases ht : truthy (sendEmailViaWebhook relay).gmail_thread_id = true
      · simp [ht]
      · simp only [ht, if_false]
        simp only [Bool.not_eq_true] at ht
        simp [ht, hT]

/-- Witness for C6's amended statement: the concrete follow-up run passes
the stored thread id and stores the relay-returned one. -/
theorem thread_continuity_amended_witness :
    (∀ call ∈ followupThreadRun.calls, call.gmail_thread_id = some tidA) ∧
    (∀ l', findLead followupThreadRun.sys 0 = some l' →
      l'.gmail_thread_id =
        if (sendEmailViaWebhook (okRelay midB tidB)).success = true ∧
            truthy (sendEmailViaWebhook (okRelay midB tidB)).gmail_thread_id = true then
          (sendEmailViaWebhook (okRelay midB tidB)).gmail_thread_id
        else some tidA) :=
  thread_continuity_amended alreadySentSys 0 alreadySentLead tidA demoContent
    (okRelay midB tidB) 2000 rfl rfl

/-- Witness for C8: with one lead sent at time 100000 the pool is blocked
for the day starting at 90000 but open again for the day starting at
200000. -/
theorem can_send_today_quota_witness :
    (canSendToday (initSys [{ baseLead 0 with sent_at := some 100000 }]) 90000).1 = false ∧
    (canSendToday (initSys [{ baseLead 0 with sent_at := some 100000 }]) 200000).1 = true :=
  ⟨(can_send_today_quota _ 90000).1
      ⟨{ baseLead 0 with sent_at := some 100000 }, by simp [initSys], 100000, rfl, by omega⟩,
   (can_send_today_quota _ 200000).2 (by
      intro l hl t hsent
      simp only [initSys, List.mem_singleton] at hl
      subst hl
      simp only at hsent
      cases hsent
      omega)⟩

/-! ### C4 -/

def demoReplyBody : String := "Thanks, interested."

/-- A lead after its initial send, with both follow-ups still pending. -/
def followupPendingLead : Lead :=
  { baseLead 0 with
    mail_status := sEmailSent
    sent_at := some 100
    followup_5_scheduled_date := some 5
    followup_10_scheduled_date := some 10
    followup_5_sent := some sFalse
    followup_10_sent := some sFalse }

/-- The store after `markReplied` (`_analyze_reply` with a failed
analysis) on the pending-follow-up lead. -/
def repliedSys : Sys :=
  analyzeReply (initSys [followupPendingLead]) 0 demoReplyBody none

/-- The replied lead's row after `markReplied`. -/
def repliedLead : Lead :=
  { followupPendingLead with mail_status := sReplyReceived }

/-- A due-follow-up sweep over the replied store, twenty days later, with
the local clock inside business hours everywhere. -/
def repliedSweep : SweepResult :=
  processDueFollowups repliedSys (fun _ => (1, 10)) (20 * 86400) []

/-- C4 counterexample: after `markReplied`, the due sweep does exclude the
lead, but its 5-day sent-marker stays `'false'` forever — it never becomes
`'cancelled'` as the claim requires (the sweep's cancellation branch is
unreachable because the due queries already filter on
`mail_status = 'email_sent'` / `'followup_5day_sent'`). -/
theorem reply_cancels_marker_counterexample :
    (findLead repliedSys 0).map Lead.mail_status = some sReplyReceived ∧
    dueList repliedSys (20 * 86400 / 86400) = [] ∧
    (findLead repliedSweep.sys 0).map Lead.followup_5_sent = some (some sFalse) ∧
    (findLead repliedSweep.sys 0).map Lead.followup_10_sent = some (some sFalse) ∧
    sFalse ≠ sCancelled := by
  decide

/-- C4 amended: once a lead's `mail_status` is `reply_received`, every
subsequent `process_due_followups` sweep excludes it from the due set and
leaves its row — both sent-markers included — completely unchanged: the
markers never become `'true'` (sent), but they also stay `'false'` rather
than becoming `'cancelled'`; `'cancelled'` is written only by the explicit
cancel endpoint (`cancel_followups_for_lead`), which the reply path never
invokes. -/
theorem reply_halts_followups_amended (s : Sys) (i : Nat) (l : Lead)
    (clock : String → Nat × Nat) (now : Nat)
    (oracle : List (Option EmailContent × RelayOutcome))
    (hnd : (s.leads.map Lead.id).Nodup)
    (hl : findLead s i = some l)
    (hreply : l.mail_status = sReplyReceived) :
    (∀ it ∈ dueList s (now / 86400), it.lead ≠ l) ∧
    findLead (processDueFollowups s clock now oracle).sys i = some l := by
  have hmem : l ∈ s.leads := List.mem_of_find?_eq_some hl
  have hid : l.id = i := findLead_id s i l hl
  have hexcl : ∀ it ∈ dueList s (now / 86400), it.lead ≠ l := by
    intro it hit heq
    rcases (mem_dueList_status s (now / 86400) it hit).2 with hst | hst <;>
      rw [heq, hreply] at hst <;> exact absurd hst (by decide)
  refine ⟨hexcl, ?_⟩
  rw [processDueFollowups]
  rw [findLead_dueLoop_ne]
  · exact hl
  · intro it hit
    intro hcontra
    have hitmem : it.lead ∈ s.leads := (mem_dueList_status s (now / 86400) it hit).1
    have : it.lead = l :=
      List.inj_on_of_nodup_map hnd hitmem hmem (by omega)
    exact hexcl it hit this

/-- Witness for C4's amended statement, at the concrete replied store. -/
theorem reply_halts_followups_amended_witness :
    (∀ it ∈ dueList repliedSys (20 * 86400 / 86400), it.lead ≠ repliedLead) ∧
    findLead repliedSweep.sys 0 = some repliedLead :=
  reply_halts_followups_amended repliedSys 0 repliedLead (fun _ => (1, 10))
    (20 * 86400) [] (by decide) (by decide) (by decide)

/-! ### C5 and C9: concrete delivery-failure runs -/

/-- The store after an initial send whose delivery timed out: the lead is
untouched and one pending dead-letter entry exists. -/
def failedInitialSys : Sys :=
  (sendEmailToLead (initSys [baseLead 0]) 0 sInitial (some demoContent)
    RelayOutcome.timeout 0).sys

/-- The dead-letter entry recorded for the timed-out initial send. -/
def c5entry0 : DLQEntry :=
  { id := 0
    lead_id := 0
    email_to := testEmailOverride
    subject := demoContent.subject
    body := demoContent.body
    error_message := sTimeoutError
    error_type := sWebhookError
    attempt_count := 1
    max_attempts := maxAttempts
    status := sPending
    next_retry_at := 3600
    last_attempt_at := none
    resolved_at := none }

/-- The store after a first retry sweep whose delivery also failed. -/
def failTwiceSys : Sys :=
  (retryFailedEmails failedInitialSys 3600 [RelayOutcome.timeout]).sys

/-- The store after a second retry sweep whose deliveries also failed:
three consecutive failures for the original entry. -/
def failThriceSys : Sys :=
  (retryFailedEmails failTwiceSys 10800
    [RelayOutcome.timeout, RelayOutcome.timeout]).sys

/-- The original dead-letter entry as it stands after three consecutive
failures: permanently `failed`. -/
def c5failedEntry : DLQEntry :=
  { c5entry0 with
    attempt_count := 2
    status := sFailedStatus
    next_retry_at := 10800
    last_attempt_at := some 10800 }

/-- C5: dead-letter bookkeeping is bounded and terminal-immutable on every
reachable store: `attempt_count` never exceeds the fixed
`max_attempts = 3`; a `resolved` or `failed` entry survives every modelled
operation unchanged; a `failed` entry is never retry-ready again; a retry
sweep whose deliveries all fail never touches any lead row (so no
`*_sent` status is written); and after three consecutive delivery
failures the original entry ends `failed` while the lead's `mail_status`
is still `new`. -/
theorem dlq_bounded_retries :
    (∀ s, Reach s → ∀ e ∈ s.dlq,
      e.attempt_count ≤ e.max_attempts ∧ e.max_attempts = maxAttempts) ∧
    (∀ s s', Reach s → Step s s' → ∀ e ∈ s.dlq,
      e.status = sResolved ∨ e.status = sFailedStatus → e ∈ s'.dlq) ∧
    (∀ (s : Sys) (now : Nat), ∀ e ∈ s.dlq, e.status = sFailedStatus →
      e ∉ retryReady s now) ∧
    (∀ (s : Sys) (now : Nat) (oracle : List RelayOutcome),
      (∀ o ∈ oracle, (sendEmailViaWebhook o).success = false) →
      (retryFailedEmails s now oracle).sys.leads = s.leads) ∧
    ((failThriceSys.dlq.map fun e => (e.id, e.status, e.attempt_count)) =
      [(0, sFailedStatus, 2), (1, sPending, 2), (2, sPending, 1), (3, sPending, 1)] ∧
     (findLead failThriceSys 0).map Lead.mail_status = some sNew) := by
  refine ⟨?_, ?_, ?_, ?_, ?_⟩
  · exact fun s hr => (reach_dlq_invariant s hr).2
  · exact fun s s' hr hstep => step_preserves_terminal hstep (reach_dlq_invariant s hr).1
  · exact fun s now e he hf => failed_not_retryReady s now e he hf
  · intro s now oracle hall
    unfold retryFailedEmails
    exact retryLoop_leads_of_all_fail now (retryReady s now) oracle
      { sys := s, calls := [], processed := 0, succeeded := 0, failed := 0 } hall
  · constructor
    · decide
    · decide

/-- Witness for C5, instantiating each universally quantified conjunct at
the concrete failure run. -/
theorem dlq_bounded_retries_witness :
    (c5entry0 ∈ failedInitialSys.dlq ∧
      c5entry0.attempt_count ≤ c5entry0.max_attempts) ∧
    c5failedEntry ∉ retryReady failThriceSys 999999 ∧
    (retryFailedEmails failedInitialSys 3600 [RelayOutcome.timeout]).sys.leads =
      failedInitialSys.leads := by
  refine ⟨⟨by decide, ?_⟩, ?_, ?_⟩
  · exact (dlq_bounded_retries.1 failedInitialSys
      (Reach.step _ _ (Reach.init [baseLead 0])
        (Step.send (initSys [baseLead 0]) 0 sInitial (some demoContent)
          RelayOutcome.timeout 0))
      c5entry0 (by decide)).1
  · exact dlq_bounded_retries.2.2.1 failThriceSys 999999 c5failedEntry
      (by decide) (by decide)
  · exact dlq_bounded_retries.2.2.2.1 failedInitialSys 3600 [RelayOutcome.timeout]
      (by decide)

/-- The second retry sweep of scenario C: the third delivery attempt for
the original entry succeeds. -/
def resolvedRun : RetryResult :=
  retryFailedEmails failTwiceSys 10800 [okRelay midA tidA, okRelay midA tidA]

/-- C9: after a failed initial delivery and a failed first retry (so the
original entry is at attempt 2, `pending`), a retry sweep whose delivery
succeeds marks the dead-letter entry `resolved` and sets the lead's
`mail_status` to `email_sent`, not `failed`. -/
theorem dlq_retry_resolves :
    (failTwiceSys.dlq.map fun e => (e.id, e.status, e.attempt_count)) =
      [(0, sPending, 2), (1, sPending, 1)] ∧
    (resolvedRun.sys.dlq.map fun e => (e.id, e.status)) =
      [(0, sResolved), (1, sResolved)] ∧
    (findLead resolvedRun.sys 0).map Lead.mail_status = some sEmailSent ∧
    sEmailSent ≠ sFailedStatus := by
  refine ⟨by decide, by decide, by decide, by decide⟩

/-! ### C10 -/

/-- C10: every delivery the engine performs through `send_email_to_lead`
or `process_email_queue` goes to the hard-coded test recipient
`prachirathi0712@gmail.com`, never to the lead's stored address: both
code paths overwrite the recipient with the constant before calling the
webhook. -/
theorem recipient_always_test_override (s : Sys) :
    (∀ (i : Nat) (ty : String) (c : Option EmailContent) (relay : RelayOutcome)
        (now : Nat),
      ∀ call ∈ (sendEmailToLead s i ty c relay now).calls,
        call.email_to = testEmailOverride) ∧
    (∀ (clock : String → Nat × Nat) (nowUtc : Nat)
        (oracle : List (Option EmailContent × RelayOutcome)),
      ∀ call ∈ (processEmailQueue s clock nowUtc oracle).calls,
        call.email_to = testEmailOverride) := by
  constructor
  · exact fun i ty c relay now => sendEmailToLead_calls_override s i ty c relay now
  · intro clock nowUtc oracle call hc
    unfold processEmailQueue at hc
    rcases queueLoop_calls_override clock nowUtc _ oracle _ call hc with hmem | h
    · simp at hmem
    · exact h

/-- Witness for C10: the concrete second-send run places a call, and that
call goes to the test override address even though the lead's stored
address differs. -/
theorem recipient_always_test_override_witness :
    secondInitialSend.calls ≠ [] ∧
    alreadySentLead.founder_email ≠ some testEmailOverride ∧
    (∀ call ∈ secondInitialSend.calls, call.email_to = testEmailOverride) :=
  ⟨by decide, by decide,
   fun call hc =>
     (recipient_always_test_override alreadySentSys).1 0 sInitial
       (some demoContent) (okRelay midB tidB) 1000 call hc⟩

end Corofy
